import Mathlib

/-!
Verification development for the firn operation-chain execution engine
(src/rust/src: opcodes.rs, execution.rs, dataframe.rs, expr.rs, io.rs,
types.rs, lib.rs).

The Rust code is shallowly embedded: raw pointers across the FFI boundary
become `Option`-valued data, the Polars backing library (an external
collaborator per the spec) is represented by an explicit environment of
fallible functions plus a plan AST, and every dispatch function is a pure
Lean function translated clause-by-clause from its Rust source.
-/

namespace Firn

/-- Error codes, from src/rust/src/lib.rs. -/
def ERROR_NULL_HANDLE : Int := 1
def ERROR_NULL_ARGS : Int := 2
def ERROR_INVALID_UTF8 : Int := 3
def ERROR_POLARS_OPERATION : Int := 4
def ERROR_EMPTY_OPERATION_STACK : Int := 5

/-- The `RawStr` (src/rust/src/lib.rs): a borrowed `{pointer, byte length}` view
into caller memory.  The engine only ever observes it through `as_str`,
which either fails (the bytes are not valid UTF-8) or produces a `&str`
(a null or empty view produces `""`).  We embed the view by that observable
content: `valid s` is a view whose bytes decode to `s`, `invalid` a view
whose bytes are not valid UTF-8. -/
inductive RawStr where
  | valid (s : String)
  | invalid
deriving DecidableEq, Repr

/-- The `RawStr::as_str` (src/rust/src/lib.rs): `Ok` with the decoded string
(null/empty views give `Ok("")`), `Err(Utf8Error)` otherwise. -/
def RawStr.asStr : RawStr → Option String
  | .valid s => some s
  | .invalid => none

instance : Inhabited RawStr := ⟨.valid ""⟩

/-- The `ContextType` (src/rust/src/opcodes.rs). -/
inductive ContextType where
  | dataFrame
  | lazyFrame
  | lazyGroupBy
deriving DecidableEq, Repr

/-- The `ContextType::from_u32` (src/rust/src/opcodes.rs). -/
def ContextType.fromU32 : Nat → Option ContextType
  | 1 => some .dataFrame
  | 2 => some .lazyFrame
  | 3 => some .lazyGroupBy
  | _ => none

/-- The wire value of a `ContextType` (`#[repr(u32)]`). -/
def ContextType.toU32 : ContextType → Nat
  | .dataFrame => 1
  | .lazyFrame => 2
  | .lazyGroupBy => 3

/-- The `ContextType::name` (src/rust/src/opcodes.rs). -/
def ContextType.name : ContextType → String
  | .dataFrame => "DataFrame"
  | .lazyFrame => "LazyFrame"
  | .lazyGroupBy => "LazyGroupBy"

/-- The `OpCode` (src/rust/src/opcodes.rs).  The `when`/`then`/`otherwise`/`cast`
expression opcodes named by the spec are not in the registry of this
opcodes.rs of this snapshot, so they do not appear here.  `readParquet` is
modelled from the spec: `dispatch_dataframe_operation`
(src/rust/src/execution.rs) dispatches `OpCode::ReadParquet`, but the
registry entry is not in the opcodes.rs of this snapshot; spec §4.1 places it in
the frame range 1–99, and we assign it the next free value 17. -/
inductive OpCode where
  | newEmpty | readCsv | select | selectExpr | count | concat | withColumn
  | filterExpr | groupBy | addNullRow | collect | agg | sort | limit
  | query | join | readParquet
  | exprColumn | exprLiteral | exprAdd | exprSub | exprMul | exprDiv
  | exprGt | exprLt | exprEq | exprAnd | exprOr | exprNot
  | exprSum | exprMean | exprMin | exprMax | exprStd | exprVar | exprMedian
  | exprFirst | exprLast | exprNUnique | exprCount | exprCountNulls
  | exprIsNull | exprIsNotNull | exprAlias
  | exprStrLen | exprStrContains | exprStrStartsWith | exprStrEndsWith
  | exprStrToLowercase | exprStrToUppercase | exprSql
  | exprOver | exprRank | exprDenseRank | exprRowNumber | exprLag | exprLead
  | errorOp
deriving DecidableEq, Repr

/-- The fixed wire value of each opcode (`#[repr(u32)]`, src/rust/src/opcodes.rs). -/
def OpCode.toU32 : OpCode → Nat
  | .newEmpty => 1 | .readCsv => 2 | .select => 3 | .selectExpr => 4
  | .count => 5 | .concat => 6 | .withColumn => 7 | .filterExpr => 8
  | .groupBy => 9 | .addNullRow => 10 | .collect => 11 | .agg => 12
  | .sort => 13 | .limit => 14 | .query => 15 | .join => 16
  | .readParquet => 17
  | .exprColumn => 100 | .exprLiteral => 101 | .exprAdd => 102
  | .exprSub => 103 | .exprMul => 104 | .exprDiv => 105 | .exprGt => 106
  | .exprLt => 107 | .exprEq => 108 | .exprAnd => 109 | .exprOr => 110
  | .exprNot => 111 | .exprSum => 112 | .exprMean => 113 | .exprMin => 114
  | .exprMax => 115 | .exprStd => 116 | .exprVar => 117 | .exprMedian => 118
  | .exprFirst => 119 | .exprLast => 120 | .exprNUnique => 121
  | .exprCount => 122 | .exprCountNulls => 123 | .exprIsNull => 124
  | .exprIsNotNull => 125 | .exprAlias => 126 | .exprStrLen => 127
  | .exprStrContains => 128 | .exprStrStartsWith => 129
  | .exprStrEndsWith => 130 | .exprStrToLowercase => 131
  | .exprStrToUppercase => 132 | .exprSql => 133
  | .exprOver => 140 | .exprRank => 141 | .exprDenseRank => 142
  | .exprRowNumber => 143 | .exprLag => 144 | .exprLead => 145
  | .errorOp => 999

/-- The `OpCode::from_u32` (src/rust/src/opcodes.rs). -/
def OpCode.fromU32 : Nat → Option OpCode
  | 1 => some .newEmpty | 2 => some .readCsv | 3 => some .select
  | 4 => some .selectExpr | 5 => some .count | 6 => some .concat
  | 7 => some .withColumn | 8 => some .filterExpr | 9 => some .groupBy
  | 10 => some .addNullRow | 11 => some .collect | 12 => some .agg
  | 13 => some .sort | 14 => some .limit | 15 => some .query
  | 16 => some .join | 17 => some .readParquet
  | 100 => some .exprColumn | 101 => some .exprLiteral | 102 => some .exprAdd
  | 103 => some .exprSub | 104 => some .exprMul | 105 => some .exprDiv
  | 106 => some .exprGt | 107 => some .exprLt | 108 => some .exprEq
  | 109 => some .exprAnd | 110 => some .exprOr | 111 => some .exprNot
  | 112 => some .exprSum | 113 => some .exprMean | 114 => some .exprMin
  | 115 => some .exprMax | 116 => some .exprStd | 117 => some .exprVar
  | 118 => some .exprMedian | 119 => some .exprFirst | 120 => some .exprLast
  | 121 => some .exprNUnique | 122 => some .exprCount
  | 123 => some .exprCountNulls | 124 => some .exprIsNull
  | 125 => some .exprIsNotNull | 126 => some .exprAlias
  | 127 => some .exprStrLen | 128 => some .exprStrContains
  | 129 => some .exprStrStartsWith | 130 => some .exprStrEndsWith
  | 131 => some .exprStrToLowercase | 132 => some .exprStrToUppercase
  | 133 => some .exprSql
  | 140 => some .exprOver | 141 => some .exprRank | 142 => some .exprDenseRank
  | 143 => some .exprRowNumber | 144 => some .exprLag | 145 => some .exprLead
  | 999 => some .errorOp
  | _ => none

/-- The `OpCode::is_expression_op` (src/rust/src/opcodes.rs):
`value >= 100 && value < 999`. -/
def OpCode.isExpressionOp (o : OpCode) : Bool :=
  100 ≤ o.toU32 && o.toU32 < 999

/-- The `OpCode::is_dataframe_op` (src/rust/src/opcodes.rs): `value < 100`. -/
def OpCode.isDataframeOp (o : OpCode) : Bool :=
  o.toU32 < 100

/-- The `SortDirection` (src/rust/src/opcodes.rs). -/
inductive SortDirection where
  | ascending
  | descending
deriving DecidableEq, Repr

/-- The `NullsOrdering` (src/rust/src/opcodes.rs). -/
inductive NullsOrdering where
  | first
  | last
deriving DecidableEq, Repr

/-- Polars `Expr` trees (external collaborator).  The engine only builds and
passes these trees (spec §9: "the expression type from the backing library
should be treated as an opaque value"), so we embed exactly the constructor
applications the handlers in src/rust/src/expr.rs perform.  An `f64` literal
payload is carried as its IEEE-754 bit pattern (the engine never computes
with it).  `strContainsLit e p` denotes `e.str().contains_literal(lit(p))`
(likewise the other pattern ops), `overSortedE e parts ords` denotes
`e.over(parts).sort_by(ords.map(col), SortMultipleOptions::default())`, and
`shiftE e o` denotes `e.shift(lit(o))`. -/
inductive PExpr where
  | col (name : String)
  | litI64 (v : Int)
  | litF64 (bits : Nat)
  | litStr (s : String)
  | litBool (b : Bool)
  | gtE (l r : PExpr)
  | ltE (l r : PExpr)
  | eqE (l r : PExpr)
  | addE (l r : PExpr)
  | subE (l r : PExpr)
  | mulE (l r : PExpr)
  | divE (l r : PExpr)
  | andE (l r : PExpr)
  | orE (l r : PExpr)
  | notE (e : PExpr)
  | sumE (e : PExpr)
  | meanE (e : PExpr)
  | minE (e : PExpr)
  | maxE (e : PExpr)
  | stdE (e : PExpr) (ddof : Nat)
  | varE (e : PExpr) (ddof : Nat)
  | medianE (e : PExpr)
  | firstE (e : PExpr)
  | lastE (e : PExpr)
  | nUniqueE (e : PExpr)
  | countE (e : PExpr)
  | isNullE (e : PExpr)
  | isNotNullE (e : PExpr)
  | aliasE (e : PExpr) (name : String)
  | strLenChars (e : PExpr)
  | strToLowercase (e : PExpr)
  | strToUppercase (e : PExpr)
  | strContainsLit (e : PExpr) (pat : String)
  | strStartsWith (e : PExpr) (pat : String)
  | strEndsWith (e : PExpr) (pat : String)
  | lenE
  | overE (e : PExpr) (partitions : List String)
  | overSortedE (e : PExpr) (partitions orderCols : List String)
  | shiftE (e : PExpr) (offset : Int)
deriving DecidableEq, Repr

instance : Inhabited PExpr := ⟨.lenE⟩

/-- A materialized Polars `DataFrame` (external collaborator).  Claims only
observe identity of content and the row count, so a frame is its row count
plus an abstract content id. -/
structure DataFrameV where
  rows : Nat
  id : Nat
deriving DecidableEq, Repr

/-- The `DataFrame::empty()`. -/
def DataFrameV.empty : DataFrameV := ⟨0, 0⟩

/-- The `DataFrame::head(Some n)` keeps the first `min n rows` rows. -/
def DataFrameV.head (df : DataFrameV) (n : Nat) : DataFrameV :=
  ⟨min n df.rows, df.id⟩

instance : Inhabited DataFrameV := ⟨DataFrameV.empty⟩

/-- The `ParallelStrategy` for Parquet scans (external collaborator).
`ScanArgsParquet::default()` uses `Auto`. -/
inductive ParallelStrategy where
  | auto
  | noParallel
deriving DecidableEq, Repr

/-- A Polars `LazyFrame` (external collaborator), embedded as the plan tree
the handlers build.  Per spec §5 the engine performs no reordering or
fusion, so the tree records exactly the chaining the handlers perform;
`scanParquet` carries the `n_rows` and `parallel` fields of the
`ScanArgsParquet` it was built with. -/
inductive LazyFrameV where
  | scanCsv (path : String) (hasHeader : Bool)
  | scanParquet (path : String) (nRows : Option Nat) (parallel : ParallelStrategy)
  | fromFrame (df : DataFrameV)
  | selectL (src : LazyFrameV) (exprs : List PExpr)
  | filterL (src : LazyFrameV) (e : PExpr)
  | limitL (src : LazyFrameV) (n : Nat)
  | sortL (src : LazyFrameV) (cols : List String) (descending nullsLast : List Bool)
  | withColumnsL (src : LazyFrameV) (exprs : List PExpr)
  | aggL (src : LazyFrameV) (keys : List String) (aggs : List PExpr)
  | sqlL (id : Nat)
deriving DecidableEq, Repr

instance : Inhabited LazyFrameV := ⟨.fromFrame DataFrameV.empty⟩

/-- A Polars `LazyGroupBy` (external collaborator): the grouped source plus
its key columns, as built by `group_by`. -/
structure LazyGroupByV where
  src : LazyFrameV
  keys : List String
deriving DecidableEq, Repr

instance : Inhabited LazyGroupByV := ⟨default, []⟩

/-- The engine-owned object a non-zero handle points to.  The context tag
names which kind the raw pointer is reinterpreted as. -/
inductive PolarsObj where
  | frame (df : DataFrameV)
  | lazy (lf : LazyFrameV)
  | lazyGroupBy (g : LazyGroupByV)
deriving DecidableEq, Repr

/-- A raw `usize` handle: `none` is the zero handle. -/
def HVal := Option PolarsObj
deriving DecidableEq, Repr

instance : Inhabited HVal := ⟨(none : Option PolarsObj)⟩

/-- Reinterpreting a handle as `*const DataFrame`
(`unsafe { &*(handle as *const DataFrame) }`).  A mismatched object or a
null pointer is undefined behaviour in the source; the embedding returns an
arbitrary default there, and no theorem exercises that case. -/
def HVal.asFrame : HVal → DataFrameV
  | some (.frame df) => df
  | _ => DataFrameV.empty

/-- Reinterpreting a handle as `*const LazyFrame` (UB on mismatch, as above). -/
def HVal.asLazy : HVal → LazyFrameV
  | some (.lazy lf) => lf
  | _ => .fromFrame DataFrameV.empty

/-- Reinterpreting a handle as `*const LazyGroupBy` (UB on mismatch, as above). -/
def HVal.asLazyGroupBy : HVal → LazyGroupByV
  | some (.lazyGroupBy g) => g
  | _ => ⟨.fromFrame DataFrameV.empty, []⟩

/-- The `PolarsHandle` (src/rust/src/opcodes.rs): raw handle plus context tag as
a raw `u32`. -/
structure PolarsHandle where
  handle : HVal
  context_type : Nat
deriving DecidableEq, Repr

/-- The `PolarsHandle::new` (src/rust/src/opcodes.rs). -/
def PolarsHandle.mkNew (h : HVal) (c : ContextType) : PolarsHandle :=
  ⟨h, c.toU32⟩

/-- The `PolarsHandle::get_context_type` (src/rust/src/opcodes.rs). -/
def PolarsHandle.getContextType (h : PolarsHandle) : Option ContextType :=
  ContextType.fromU32 h.context_type

/-- The `FfiResult`.  Modelled from the spec: the current crate root declaring
`FfiResult` is not under src/ (src/rust/src/lib.rs is an older
function-pointer shape); the fields follow spec §3 `OperationResult` and the
older `Result` struct in lib.rs, and the constructors follow their uses in
src/rust/src/{execution,dataframe,io,expr}.rs.  The owned error-message
pointer is embedded as the message string (null pointer = `""`). -/
structure FfiResult where
  polars_handle : PolarsHandle
  error_code : Int
  error_message : String
  error_frame : Nat
deriving DecidableEq, Repr

/-- The `FfiResult::success(df)`: box a new frame, tag `DataFrame`. -/
def FfiResult.success (df : DataFrameV) : FfiResult :=
  ⟨PolarsHandle.mkNew (some (.frame df)) .dataFrame, 0, "", 0⟩

/-- The `FfiResult::success_lazy(lf)`: box a new lazy frame, tag `LazyFrame`. -/
def FfiResult.successLazy (lf : LazyFrameV) : FfiResult :=
  ⟨PolarsHandle.mkNew (some (.lazy lf)) .lazyFrame, 0, "", 0⟩

/-- The `FfiResult::success_lazy_group_by(g)`: box a grouped plan, tag
`LazyGroupBy`. -/
def FfiResult.successLazyGroupBy (g : LazyGroupByV) : FfiResult :=
  ⟨PolarsHandle.mkNew (some (.lazyGroupBy g)) .lazyGroupBy, 0, "", 0⟩

/-- The `FfiResult::success_no_handle()`: used by expression operations, which
produce no handle. -/
def FfiResult.successNoHandle : FfiResult :=
  ⟨PolarsHandle.mkNew none .dataFrame, 0, "", 0⟩

/-- The `FfiResult::success_with_handle(handle, context)`
(src/rust/src/execution.rs, end of `execute_operations`). -/
def FfiResult.successWithHandle (h : HVal) (c : ContextType) : FfiResult :=
  ⟨PolarsHandle.mkNew h c, 0, "", 0⟩

/-- The `FfiResult::error(code, message)`: zero handle, the code and an owned
message, offending index 0. -/
def FfiResult.error (code : Int) (message : String) : FfiResult :=
  ⟨PolarsHandle.mkNew none .dataFrame, code, message, 0⟩

/-- The `ColumnArgs` (src/rust/src/expr.rs). -/
structure ColumnArgs where
  name : RawStr
deriving Repr

instance : Inhabited ColumnArgs := ⟨⟨default⟩⟩

/-- The `Literal` (src/rust/src/expr.rs): tagged union carrying all four value
slots plus a tag.  The `f64` slot is its bit pattern. -/
structure LiteralV where
  value_type : Nat
  int_value : Int
  float_value : Nat
  string_value : RawStr
  bool_value : Bool
deriving Repr

instance : Inhabited LiteralV := ⟨⟨0, 0, 0, default, false⟩⟩

/-- The `Literal::to_expr` (src/rust/src/expr.rs). -/
def LiteralV.toExpr (l : LiteralV) : Except String PExpr :=
  match l.value_type with
  | 0 => .ok (.litI64 l.int_value)
  | 1 => .ok (.litF64 l.float_value)
  | 2 =>
    match l.string_value.asStr with
    | some s => .ok (.litStr s)
    | none => .error "Invalid UTF-8 in string literal"
  | 3 => .ok (.litBool l.bool_value)
  | _ => .error "Invalid literal type"

/-- The `LiteralArgs` (src/rust/src/expr.rs). -/
structure LiteralArgs where
  literal : LiteralV
deriving Repr

instance : Inhabited LiteralArgs := ⟨⟨default⟩⟩

/-- The `AliasArgs` (src/rust/src/expr.rs). -/
structure AliasArgs where
  name : RawStr
deriving Repr

instance : Inhabited AliasArgs := ⟨⟨default⟩⟩

/-- The `StringArgs` (src/rust/src/expr.rs). -/
structure StringArgs where
  pattern : RawStr
deriving Repr

instance : Inhabited StringArgs := ⟨⟨default⟩⟩

/-- The `AggregationArgs` (src/rust/src/expr.rs): `ddof : u8`. -/
structure AggregationArgs where
  ddof : Nat
deriving Repr

instance : Inhabited AggregationArgs := ⟨⟨0⟩⟩

/-- The `CountArgs` (src/rust/src/expr.rs). -/
structure CountArgs where
  include_nulls : Bool
deriving Repr

instance : Inhabited CountArgs := ⟨⟨false⟩⟩

/-- The `SqlExprArgs` (src/rust/src/opcodes.rs). -/
structure SqlExprArgs where
  sql : RawStr
deriving Repr

instance : Inhabited SqlExprArgs := ⟨⟨default⟩⟩

/-- Modelled from the spec: `WindowArgs` is referenced by `expr_over`
(src/rust/src/expr.rs) but declared in the crate root, which is not under
src/.  Per spec §4.2 it carries `partitions[]` and `orders[]` as string
views; the counts are the list lengths. -/
structure WindowArgs where
  partition_columns : List RawStr
  order_columns : List RawStr
deriving Repr

instance : Inhabited WindowArgs := ⟨⟨[], []⟩⟩

/-- Modelled from the spec: `WindowOffsetArgs` is referenced by
`expr_lag`/`expr_lead` (src/rust/src/expr.rs) but declared in the crate
root, which is not under src/.  Per spec §4.2 Lag/Lead "read a signed
offset"; we model the field as a mathematical integer standing for the
`i64`. -/
structure WindowOffsetArgs where
  offset : Int
deriving Repr

instance : Inhabited WindowOffsetArgs := ⟨⟨0⟩⟩

/-- The `ReadCsvArgs` (src/rust/src/io.rs). -/
structure ReadCsvArgs where
  path : RawStr
  has_header : Bool
  with_glob : Bool
deriving Repr

instance : Inhabited ReadCsvArgs := ⟨⟨default, false, false⟩⟩

/-- The `ReadParquetArgs` (src/rust/src/io.rs).  `columns = none` is a null
column pointer; `column_count` is the list length. -/
structure ReadParquetArgs where
  path : RawStr
  columns : Option (List RawStr)
  n_rows : Nat
  parallel : Bool
  with_glob : Bool
deriving Repr

instance : Inhabited ReadParquetArgs := ⟨⟨default, none, 0, false, false⟩⟩

/-- The `SelectArgs` (src/rust/src/dataframe.rs); `columns = none` is a null
array pointer, `column_count` the list length. -/
structure SelectArgs where
  columns : Option (List RawStr)
deriving Repr

instance : Inhabited SelectArgs := ⟨⟨none⟩⟩

/-- The `GroupByArgs` (src/rust/src/dataframe.rs). -/
structure GroupByArgs where
  columns : Option (List RawStr)
deriving Repr

instance : Inhabited GroupByArgs := ⟨⟨none⟩⟩

/-- The `ConcatArgs` (src/rust/src/dataframe.rs): an array of raw frame handles
(`none` list = null pointer, `none` element = zero handle). -/
structure ConcatArgs where
  handles : Option (List (Option DataFrameV))
deriving Repr

instance : Inhabited ConcatArgs := ⟨⟨none⟩⟩

/-- The `SortField` (src/rust/src/opcodes.rs). -/
structure SortFieldV where
  column : RawStr
  direction : SortDirection
  nulls_ordering : NullsOrdering
deriving Repr

/-- The `SortArgs` (src/rust/src/opcodes.rs); `field_count` is the list length. -/
structure SortArgs where
  fields : List SortFieldV
deriving Repr

instance : Inhabited SortArgs := ⟨⟨[]⟩⟩

/-- The `LimitArgs` (src/rust/src/opcodes.rs): `n : usize`. -/
structure LimitArgs where
  n : Nat
deriving Repr

instance : Inhabited LimitArgs := ⟨⟨0⟩⟩

/-- The `QueryArgs` (src/rust/src/opcodes.rs). -/
structure QueryArgs where
  sql : RawStr
deriving Repr

instance : Inhabited QueryArgs := ⟨⟨default⟩⟩

/-- The operation-specific argument blob behind `Operation::args`
(`usize` reinterpreted per opcode).  `nullPtr` is a null/zero argument
pointer.  A blob read at the wrong layout is undefined behaviour in the
source; the accessors below return an arbitrary default there, and no
theorem exercises that case.  `filterA` carries the embedded expression
sub-program as raw `(opcode, args)` pairs (`FilterExprArgs`,
src/rust/src/dataframe.rs); `joinA` stands for the join argument blob,
whose layout is not under src/ and which no claim examines. -/
inductive ArgVal where
  | nullPtr
  | columnA (a : ColumnArgs)
  | literalA (a : LiteralArgs)
  | aliasA (a : AliasArgs)
  | stringA (a : StringArgs)
  | aggA (a : AggregationArgs)
  | countA (a : CountArgs)
  | sqlA (a : SqlExprArgs)
  | windowA (a : WindowArgs)
  | windowOffA (a : WindowOffsetArgs)
  | readCsvA (a : ReadCsvArgs)
  | readParquetA (a : ReadParquetArgs)
  | selectA (a : SelectArgs)
  | groupByA (a : GroupByArgs)
  | concatA (a : ConcatArgs)
  | sortA (a : SortArgs)
  | limitA (a : LimitArgs)
  | queryA (a : QueryArgs)
  | filterA (expr_ops : Option (List (Nat × ArgVal)))
  | joinA

/-- The `Operation` (src/rust/src/opcodes.rs): `{u32 opcode; usize args}`. -/
abbrev Operation := Nat × ArgVal

/-- The `Operation::get_opcode` (src/rust/src/opcodes.rs). -/
def Operation.getOpcode (op : Operation) : Option OpCode :=
  OpCode.fromU32 op.1

def ArgVal.asColumn : ArgVal → ColumnArgs
  | .columnA a => a
  | _ => ⟨.valid ""⟩

def ArgVal.asLiteral : ArgVal → LiteralArgs
  | .literalA a => a
  | _ => ⟨⟨0, 0, 0, .valid "", false⟩⟩

def ArgVal.asAlias : ArgVal → AliasArgs
  | .aliasA a => a
  | _ => ⟨.valid ""⟩

def ArgVal.asString : ArgVal → StringArgs
  | .stringA a => a
  | _ => ⟨.valid ""⟩

def ArgVal.asAgg : ArgVal → AggregationArgs
  | .aggA a => a
  | _ => ⟨0⟩

def ArgVal.asCount : ArgVal → CountArgs
  | .countA a => a
  | _ => ⟨false⟩

def ArgVal.asSql : ArgVal → SqlExprArgs
  | .sqlA a => a
  | _ => ⟨.valid ""⟩

def ArgVal.asWindow : ArgVal → WindowArgs
  | .windowA a => a
  | _ => ⟨[], []⟩

def ArgVal.asWindowOff : ArgVal → WindowOffsetArgs
  | .windowOffA a => a
  | _ => ⟨0⟩

def ArgVal.asReadCsv : ArgVal → ReadCsvArgs
  | .readCsvA a => a
  | _ => ⟨.valid "", false, false⟩

def ArgVal.asReadParquet : ArgVal → ReadParquetArgs
  | .readParquetA a => a
  | _ => ⟨.valid "", none, 0, false, false⟩

def ArgVal.asSelect : ArgVal → SelectArgs
  | .selectA a => a
  | _ => ⟨none⟩

def ArgVal.asGroupBy : ArgVal → GroupByArgs
  | .groupByA a => a
  | _ => ⟨none⟩

def ArgVal.asConcat : ArgVal → ConcatArgs
  | .concatA a => a
  | _ => ⟨none⟩

def ArgVal.asSort : ArgVal → SortArgs
  | .sortA a => a
  | _ => ⟨[]⟩

def ArgVal.asLimit : ArgVal → LimitArgs
  | .limitA a => a
  | _ => ⟨0⟩

def ArgVal.asQuery : ArgVal → QueryArgs
  | .queryA a => a
  | _ => ⟨.valid ""⟩

/-- Reading `FilterExprArgs` (src/rust/src/dataframe.rs): the embedded
sub-program pointer and count (`none` = null pointer). -/
def ArgVal.asFilter : ArgVal → Option (List Operation)
  | .filterA ops => ops
  | _ => some []

/-- The external collaborators (the backing columnar library and the file
system), out of scope per spec §1.  Each field is one fallible call the
engine makes; the environment fixes its outcome for a given input, matching
the single-threaded one-shot execution model of spec §5. -/
structure Env where
  /-- The `LazyCsvReader::new(path).with_has_header(h).finish()`. -/
  csvFinish : String → Bool → Except String Unit
  /-- The `LazyFrame::scan_parquet(path, args)` succeeding or failing. -/
  parquetScan : String → Except String Unit
  /-- The `polars_sql::sql_expr(sql)`. -/
  sqlExprParse : String → Except String PExpr
  /-- The `SQLContext` with the input registered as `df`, then `execute(sql)`. -/
  sqlExec : LazyFrameV → String → Except String LazyFrameV
  /-- The `LazyFrame::collect()`. -/
  collectRun : LazyFrameV → Except String DataFrameV
  /-- The `DataFrame::sort(columns, options)`. -/
  sortFrame : DataFrameV → List String → List Bool → List Bool → Except String DataFrameV
  /-- The null-row construction of `dispatch_add_null_row`: per-column
  `full_null`, `DataFrame::new`, `vstack`. -/
  vstackNull : DataFrameV → Except String DataFrameV
  /-- The `concat(frames, UnionArgs::default())` followed by `collect()`. -/
  concatRun : List DataFrameV → Except String DataFrameV
  /-- Modelled from the spec: eager join on a Frame (spec §4.4 Join). -/
  joinFrame : DataFrameV → Except String DataFrameV
  /-- Modelled from the spec: lazy join on a Plan (spec §4.4 Join). -/
  joinLazy : LazyFrameV → Except String LazyFrameV

/-- Helper `raw_str_array_to_vec` (src/rust/src/dataframe.rs and io.rs):
null array → error; any invalid UTF-8 entry → error; otherwise the decoded
strings in order. -/
def rawStrArrayToVec : Option (List RawStr) → Except String (List String)
  | none => .error "RawStr array cannot be null"
  | some l => go l
where
  go : List RawStr → Except String (List String)
    | [] => .ok []
    | r :: rest =>
      match r.asStr with
      | none => .error "Invalid UTF-8 in string"
      | some s =>
        match go rest with
        | .error e => .error e
        | .ok tl => .ok (s :: tl)

/-!  The expression stack machine (src/rust/src/expr.rs).

The `Vec<Expr>` behind `ExecutionContext::expr_stack` is embedded as a
`List PExpr` whose head is the top of the stack (the last element of the
`Vec`); `push` conses, `pop` takes the head.  Each handler returns the
`FfiResult` together with the stack it leaves behind. -/

/-- The `binary_expr_op` (src/rust/src/expr.rs): fewer than 2 expressions is an
error leaving the stack untouched; otherwise the top is popped as the right
operand, the next as the left, and `op left right` is pushed. -/
def binaryExprOp (opName : String) (op : PExpr → PExpr → PExpr)
    (stack : List PExpr) : FfiResult × List PExpr :=
  match stack with
  | right :: left :: rest => (FfiResult.successNoHandle, op left right :: rest)
  | _ =>
    (FfiResult.error ERROR_POLARS_OPERATION
      (opName ++ " requires 2 expressions on stack"), stack)

/-- The `unary_expr_op` (src/rust/src/expr.rs). -/
def unaryExprOp (opName : String) (op : PExpr → PExpr)
    (stack : List PExpr) : FfiResult × List PExpr :=
  match stack with
  | e :: rest => (FfiResult.successNoHandle, op e :: rest)
  | [] =>
    (FfiResult.error ERROR_POLARS_OPERATION
      (opName ++ " requires 1 expression on stack"), [])

/-- The `expr_column` (src/rust/src/expr.rs). -/
def exprColumn (args : ArgVal) (stack : List PExpr) : FfiResult × List PExpr :=
  match args.asColumn.name.asStr with
  | none => (FfiResult.error ERROR_INVALID_UTF8 "Invalid UTF-8 in column name", stack)
  | some s => (FfiResult.successNoHandle, .col s :: stack)

/-- The `expr_literal` (src/rust/src/expr.rs). -/
def exprLiteral (args : ArgVal) (stack : List PExpr) : FfiResult × List PExpr :=
  match args.asLiteral.literal.toExpr with
  | .error _ => (FfiResult.error ERROR_POLARS_OPERATION "Invalid literal", stack)
  | .ok e => (FfiResult.successNoHandle, e :: stack)

/-- The `expr_gt` (src/rust/src/expr.rs). -/
def exprGt (stack : List PExpr) : FfiResult × List PExpr :=
  binaryExprOp "greater than" .gtE stack

/-- The `expr_lt` (src/rust/src/expr.rs). -/
def exprLt (stack : List PExpr) : FfiResult × List PExpr :=
  binaryExprOp "less than" .ltE stack

/-- The `expr_eq` (src/rust/src/expr.rs). -/
def exprEq (stack : List PExpr) : FfiResult × List PExpr :=
  binaryExprOp "equality" .eqE stack

/-- The `expr_add` (src/rust/src/expr.rs). -/
def exprAdd (stack : List PExpr) : FfiResult × List PExpr :=
  binaryExprOp "addition" .addE stack

/-- The `expr_sub` (src/rust/src/expr.rs). -/
def exprSub (stack : List PExpr) : FfiResult × List PExpr :=
  binaryExprOp "subtraction" .subE stack

/-- The `expr_mul` (src/rust/src/expr.rs). -/
def exprMul (stack : List PExpr) : FfiResult × List PExpr :=
  binaryExprOp "multiplication" .mulE stack

/-- The `expr_div` (src/rust/src/expr.rs). -/
def exprDiv (stack : List PExpr) : FfiResult × List PExpr :=
  binaryExprOp "division" .divE stack

/-- The `expr_and` (src/rust/src/expr.rs). -/
def exprAnd (stack : List PExpr) : FfiResult × List PExpr :=
  binaryExprOp "logical AND" .andE stack

/-- The `expr_or` (src/rust/src/expr.rs). -/
def exprOr (stack : List PExpr) : FfiResult × List PExpr :=
  binaryExprOp "logical OR" .orE stack

/-- The `expr_not` (src/rust/src/expr.rs). -/
def exprNot (stack : List PExpr) : FfiResult × List PExpr :=
  unaryExprOp "logical NOT" .notE stack

/-- The `expr_sum` (src/rust/src/expr.rs). -/
def exprSum (stack : List PExpr) : FfiResult × List PExpr :=
  unaryExprOp "sum" .sumE stack

/-- The `expr_mean` (src/rust/src/expr.rs). -/
def exprMean (stack : List PExpr) : FfiResult × List PExpr :=
  unaryExprOp "mean" .meanE stack

/-- The `expr_min` (src/rust/src/expr.rs). -/
def exprMin (stack : List PExpr) : FfiResult × List PExpr :=
  unaryExprOp "min" .minE stack

/-- The `expr_max` (src/rust/src/expr.rs). -/
def exprMax (stack : List PExpr) : FfiResult × List PExpr :=
  unaryExprOp "max" .maxE stack

/-- The `expr_std` (src/rust/src/expr.rs): reads `ddof` from `AggregationArgs`. -/
def exprStd (args : ArgVal) (stack : List PExpr) : FfiResult × List PExpr :=
  match stack with
  | [] => (FfiResult.error ERROR_POLARS_OPERATION "std requires 1 expression on stack", [])
  | e :: rest => (FfiResult.successNoHandle, .stdE e args.asAgg.ddof :: rest)

/-- The `expr_var` (src/rust/src/expr.rs): reads `ddof` from `AggregationArgs`. -/
def exprVar (args : ArgVal) (stack : List PExpr) : FfiResult × List PExpr :=
  match stack with
  | [] => (FfiResult.error ERROR_POLARS_OPERATION "var requires 1 expression on stack", [])
  | e :: rest => (FfiResult.successNoHandle, .varE e args.asAgg.ddof :: rest)

/-- The `expr_alias` (src/rust/src/expr.rs): empty-stack check first, then the
UTF-8 check on the alias name, then pop/push. -/
def exprAlias (args : ArgVal) (stack : List PExpr) : FfiResult × List PExpr :=
  match stack with
  | [] => (FfiResult.error ERROR_POLARS_OPERATION "alias requires 1 expression on stack", [])
  | e :: rest =>
    match args.asAlias.name.asStr with
    | none => (FfiResult.error ERROR_INVALID_UTF8 "Invalid UTF-8 in alias name", e :: rest)
    | some s => (FfiResult.successNoHandle, .aliasE e s :: rest)

/-- The `expr_median` (src/rust/src/expr.rs). -/
def exprMedian (stack : List PExpr) : FfiResult × List PExpr :=
  unaryExprOp "median" .medianE stack

/-- The `expr_first` (src/rust/src/expr.rs). -/
def exprFirst (stack : List PExpr) : FfiResult × List PExpr :=
  unaryExprOp "first" .firstE stack

/-- The `expr_last` (src/rust/src/expr.rs). -/
def exprLast (stack : List PExpr) : FfiResult × List PExpr :=
  unaryExprOp "last" .lastE stack

/-- The `expr_nunique` (src/rust/src/expr.rs). -/
def exprNUnique (stack : List PExpr) : FfiResult × List PExpr :=
  unaryExprOp "nunique" .nUniqueE stack

/-- The `expr_count` (src/rust/src/expr.rs).  The source reads
`args.include_nulls` and pushes `expr.count()` in *both* match arms (its
comments claim one arm includes nulls and the other excludes them); the
conditional is reproduced verbatim. -/
def exprCount (args : ArgVal) (stack : List PExpr) : FfiResult × List PExpr :=
  match stack with
  | [] => (FfiResult.error ERROR_POLARS_OPERATION "count requires 1 expression on stack", [])
  | e :: rest =>
    (FfiResult.successNoHandle,
      (if args.asCount.include_nulls then PExpr.countE e else PExpr.countE e) :: rest)

/-- The `expr_is_null` (src/rust/src/expr.rs). -/
def exprIsNull (stack : List PExpr) : FfiResult × List PExpr :=
  unaryExprOp "is_null" .isNullE stack

/-- The `expr_is_not_null` (src/rust/src/expr.rs). -/
def exprIsNotNull (stack : List PExpr) : FfiResult × List PExpr :=
  unaryExprOp "is_not_null" .isNotNullE stack

/-- The `expr_str_len` (src/rust/src/expr.rs). -/
def exprStrLen (stack : List PExpr) : FfiResult × List PExpr :=
  unaryExprOp "str_len" .strLenChars stack

/-- The `expr_str_to_lowercase` (src/rust/src/expr.rs). -/
def exprStrToLowercase (stack : List PExpr) : FfiResult × List PExpr :=
  unaryExprOp "str_to_lowercase" .strToLowercase stack

/-- The `expr_str_to_uppercase` (src/rust/src/expr.rs). -/
def exprStrToUppercase (stack : List PExpr) : FfiResult × List PExpr :=
  unaryExprOp "str_to_uppercase" .strToUppercase stack

/-- The `expr_str_contains` (src/rust/src/expr.rs). -/
def exprStrContains (args : ArgVal) (stack : List PExpr) : FfiResult × List PExpr :=
  match stack with
  | [] => (FfiResult.error ERROR_POLARS_OPERATION "str_contains requires 1 expression on stack", [])
  | e :: rest =>
    match args.asString.pattern.asStr with
    | none => (FfiResult.error ERROR_INVALID_UTF8 "Invalid UTF-8 in pattern", e :: rest)
    | some p => (FfiResult.successNoHandle, .strContainsLit e p :: rest)

/-- The `expr_str_starts_with` (src/rust/src/expr.rs). -/
def exprStrStartsWith (args : ArgVal) (stack : List PExpr) : FfiResult × List PExpr :=
  match stack with
  | [] => (FfiResult.error ERROR_POLARS_OPERATION "str_starts_with requires 1 expression on stack", [])
  | e :: rest =>
    match args.asString.pattern.asStr with
    | none => (FfiResult.error ERROR_INVALID_UTF8 "Invalid UTF-8 in prefix", e :: rest)
    | some p => (FfiResult.successNoHandle, .strStartsWith e p :: rest)

/-- The `expr_str_ends_with` (src/rust/src/expr.rs). -/
def exprStrEndsWith (args : ArgVal) (stack : List PExpr) : FfiResult × List PExpr :=
  match stack with
  | [] => (FfiResult.error ERROR_POLARS_OPERATION "str_ends_with requires 1 expression on stack", [])
  | e :: rest =>
    match args.asString.pattern.asStr with
    | none => (FfiResult.error ERROR_INVALID_UTF8 "Invalid UTF-8 in suffix", e :: rest)
    | some p => (FfiResult.successNoHandle, .strEndsWith e p :: rest)

/-- The `expr_sql` (src/rust/src/expr.rs). -/
def exprSql (env : Env) (args : ArgVal) (stack : List PExpr) : FfiResult × List PExpr :=
  match args.asSql.sql.asStr with
  | none => (FfiResult.error ERROR_INVALID_UTF8 "Invalid UTF-8 in SQL expression", stack)
  | some sql =>
    match env.sqlExprParse sql with
    | .ok e => (FfiResult.successNoHandle, e :: stack)
    | .error e =>
      (FfiResult.error ERROR_POLARS_OPERATION ("SQL expression parsing failed: " ++ e), stack)

/-- The `collect` of partition/order columns in `expr_over`: `none` if any
entry is invalid UTF-8. -/
def rawStrList : List RawStr → Option (List String)
  | [] => some []
  | r :: rest =>
    match r.asStr with
    | none => none
    | some s =>
      match rawStrList rest with
      | none => none
      | some tl => some (s :: tl)

/-- The `expr_over` (src/rust/src/expr.rs): empty-stack check, partition and
order column extraction (each with its UTF-8 error), then the windowed
expression, sorted when order columns are supplied. -/
def exprOver (args : ArgVal) (stack : List PExpr) : FfiResult × List PExpr :=
  match stack with
  | [] => (FfiResult.error ERROR_POLARS_OPERATION "over requires 1 expression on stack", [])
  | e :: rest =>
    match rawStrList args.asWindow.partition_columns with
    | none => (FfiResult.error ERROR_INVALID_UTF8 "Invalid UTF-8 in partition columns", e :: rest)
    | some parts =>
      match rawStrList args.asWindow.order_columns with
      | none => (FfiResult.error ERROR_INVALID_UTF8 "Invalid UTF-8 in order columns", e :: rest)
      | some ords =>
        if ords.isEmpty then (FfiResult.successNoHandle, .overE e parts :: rest)
        else (FfiResult.successNoHandle, .overSortedE e parts ords :: rest)

/-- The `expr_rank` (src/rust/src/expr.rs): pushes the placeholder
`lit(1).alias("rank")`. -/
def exprRank (stack : List PExpr) : FfiResult × List PExpr :=
  (FfiResult.successNoHandle, .aliasE (.litI64 1) "rank" :: stack)

/-- The `expr_dense_rank` (src/rust/src/expr.rs): placeholder
`lit(1).alias("dense_rank")`. -/
def exprDenseRank (stack : List PExpr) : FfiResult × List PExpr :=
  (FfiResult.successNoHandle, .aliasE (.litI64 1) "dense_rank" :: stack)

/-- The `expr_row_number` (src/rust/src/expr.rs): placeholder
`lit(1).alias("row_number")`. -/
def exprRowNumber (stack : List PExpr) : FfiResult × List PExpr :=
  (FfiResult.successNoHandle, .aliasE (.litI64 1) "row_number" :: stack)

/-- Twos-complement wrap-around of an `i64` arithmetic result (release-mode
Rust semantics). -/
def wrap64 (x : Int) : Int :=
  (x + 2 ^ 63) % 2 ^ 64 - 2 ^ 63

/-- The `expr_lag` (src/rust/src/expr.rs): pops one expression and pushes
`expr.shift(lit(offset))` where `offset = (-args.offset) as i64`. -/
def exprLag (args : ArgVal) (stack : List PExpr) : FfiResult × List PExpr :=
  match stack with
  | [] => (FfiResult.error ERROR_POLARS_OPERATION "lag requires 1 expression on stack", [])
  | e :: rest =>
    (FfiResult.successNoHandle, .shiftE e (wrap64 (-args.asWindowOff.offset)) :: rest)

/-- The `expr_lead` (src/rust/src/expr.rs): pops one expression and pushes
`expr.shift(lit(offset))` where `offset = -(args.offset as i64)` (the `as`
cast is the identity on an `i64` field). -/
def exprLead (args : ArgVal) (stack : List PExpr) : FfiResult × List PExpr :=
  match stack with
  | [] => (FfiResult.error ERROR_POLARS_OPERATION "lead requires 1 expression on stack", [])
  | e :: rest =>
    (FfiResult.successNoHandle, .shiftE e (wrap64 (-args.asWindowOff.offset)) :: rest)

/-- The `dispatch_expression_operation` (src/rust/src/execution.rs).
`ExprCountNulls` routes to `expr_count` ("Same function, different args").
The `ExprWhen`/`ExprThen`/`ExprOtherwise`/`ExprCast` arms of execution.rs
name opcodes that are not in the registry of this snapshot (opcodes.rs), so they
have no counterpart here; anything else falls to the default error arm. -/
def dispatchExpressionOperation (env : Env) (opcode : OpCode) (args : ArgVal)
    (stack : List PExpr) : FfiResult × List PExpr :=
  match opcode with
  | .exprColumn => exprColumn args stack
  | .exprLiteral => exprLiteral args stack
  | .exprAdd => exprAdd stack
  | .exprSub => exprSub stack
  | .exprMul => exprMul stack
  | .exprDiv => exprDiv stack
  | .exprGt => exprGt stack
  | .exprLt => exprLt stack
  | .exprEq => exprEq stack
  | .exprAnd => exprAnd stack
  | .exprOr => exprOr stack
  | .exprNot => exprNot stack
  | .exprSum => exprSum stack
  | .exprMean => exprMean stack
  | .exprMin => exprMin stack
  | .exprMax => exprMax stack
  | .exprStd => exprStd args stack
  | .exprVar => exprVar args stack
  | .exprMedian => exprMedian stack
  | .exprFirst => exprFirst stack
  | .exprLast => exprLast stack
  | .exprNUnique => exprNUnique stack
  | .exprCount => exprCount args stack
  | .exprCountNulls => exprCount args stack
  | .exprIsNull => exprIsNull stack
  | .exprIsNotNull => exprIsNotNull stack
  | .exprAlias => exprAlias args stack
  | .exprStrLen => exprStrLen stack
  | .exprStrContains => exprStrContains args stack
  | .exprStrStartsWith => exprStrStartsWith args stack
  | .exprStrEndsWith => exprStrEndsWith args stack
  | .exprStrToLowercase => exprStrToLowercase stack
  | .exprStrToUppercase => exprStrToUppercase stack
  | .exprSql => exprSql env args stack
  | .exprOver => exprOver args stack
  | .exprRank => exprRank stack
  | .exprDenseRank => exprDenseRank stack
  | .exprRowNumber => exprRowNumber stack
  | .exprLag => exprLag args stack
  | .exprLead => exprLead args stack
  | _ => (FfiResult.error ERROR_POLARS_OPERATION "Unsupported expression operation", stack)

/-- The loop of `execute_expr_ops` (src/rust/src/execution.rs) over a
private stack. -/
def executeExprOpsGo (env : Env) : List PExpr → List Operation →
    Except String (List PExpr)
  | stack, [] => .ok stack
  | stack, op :: rest =>
    match op.getOpcode with
    | none => .error "Invalid opcode"
    | some opcode =>
      if opcode.isExpressionOp then
        let r := dispatchExpressionOperation env opcode op.2 stack
        if r.1.error_code ≠ 0 then .error "Expression operation failed"
        else executeExprOpsGo env r.2 rest
      else .error "Non-expression operation in expression context"

/-- The `execute_expr_ops` (src/rust/src/execution.rs): runs the sub-program on
a fresh stack and requires exactly one expression at the end. -/
def executeExprOps (env : Env) (ops : List Operation) : Except String PExpr :=
  match executeExprOpsGo env [] ops with
  | .error e => .error e
  | .ok [e] => .ok e
  | .ok _ => .error "Invalid expression - stack should have exactly one element"

/-!  The frame handlers (src/rust/src/dataframe.rs and io.rs). -/

/-- The `dispatch_new_empty` (src/rust/src/dataframe.rs). -/
def dispatchNewEmpty : FfiResult :=
  FfiResult.success DataFrameV.empty

/-- The `dispatch_read_csv` (src/rust/src/io.rs): UTF-8 check on the path, then
`LazyCsvReader::new(path).with_has_header(..).finish()`; the `with_glob`
flag is not consulted by this version. -/
def dispatchReadCsv (env : Env) (_h : PolarsHandle) (args : ArgVal) : FfiResult :=
  let a := args.asReadCsv
  match a.path.asStr with
  | none => FfiResult.error ERROR_INVALID_UTF8 "Invalid UTF-8 in path"
  | some path =>
    match env.csvFinish path a.has_header with
    | .ok _ => FfiResult.successLazy (.scanCsv path a.has_header)
    | .error e => FfiResult.error ERROR_POLARS_OPERATION e

/-- The `dispatch_read_parquet` (src/rust/src/io.rs).  With a non-null,
non-empty column list the function scans with `ScanArgsParquet::default()`
(no row limit, `Auto` parallelism), applies the column selection after the
scan and returns early; only the no-column path installs `n_rows` and
`parallel` into the scan arguments. -/
def dispatchReadParquet (env : Env) (_h : PolarsHandle) (args : ArgVal) : FfiResult :=
  let a := args.asReadParquet
  match a.path.asStr with
  | none => FfiResult.error ERROR_INVALID_UTF8 "Invalid UTF-8 in path"
  | some path =>
    match a.columns with
    | some colList =>
      if 0 < colList.length then
        match rawStrArrayToVec (some colList) with
        | .error msg => FfiResult.error ERROR_POLARS_OPERATION msg
        | .ok cols =>
          match env.parquetScan path with
          | .error e => FfiResult.error ERROR_POLARS_OPERATION e
          | .ok _ =>
            FfiResult.successLazy
              (.selectL (.scanParquet path none .auto) (cols.map PExpr.col))
      else scanPlain env path a
    | none => scanPlain env path a
where
  /-- The no-column path: `n_rows` (when positive) and `parallel` are set in
  the `ScanArgsParquet`. -/
  scanPlain (env : Env) (path : String) (a : ReadParquetArgs) : FfiResult :=
    let nOpt : Option Nat := if 0 < a.n_rows then some a.n_rows else none
    let par : ParallelStrategy := if a.parallel then .auto else .noParallel
    match env.parquetScan path with
    | .ok _ => FfiResult.successLazy (.scanParquet path nOpt par)
    | .error e => FfiResult.error ERROR_POLARS_OPERATION e

/-- The `dispatch_select` (src/rust/src/dataframe.rs). -/
def dispatchSelect (h : PolarsHandle) (args : ArgVal) : FfiResult :=
  match h.handle with
  | none => FfiResult.error ERROR_NULL_HANDLE "Handle cannot be null"
  | some _ =>
    match rawStrArrayToVec args.asSelect.columns with
    | .error msg => FfiResult.error ERROR_NULL_ARGS msg
    | .ok cols =>
      let exprs := cols.map PExpr.col
      match h.getContextType with
      | none => FfiResult.error ERROR_POLARS_OPERATION "Invalid context type"
      | some .dataFrame =>
        FfiResult.successLazy (.selectL (.fromFrame h.handle.asFrame) exprs)
      | some .lazyFrame =>
        FfiResult.successLazy (.selectL h.handle.asLazy exprs)
      | some .lazyGroupBy =>
        FfiResult.error ERROR_POLARS_OPERATION
          "Cannot call select() on grouped data. Call agg() first to resolve grouping."

/-- The `dispatch_group_by` (src/rust/src/dataframe.rs): builds a `LazyGroupBy`
with no immediate aggregation. -/
def dispatchGroupBy (h : PolarsHandle) (args : ArgVal) : FfiResult :=
  match h.handle with
  | none => FfiResult.error ERROR_NULL_HANDLE "Handle cannot be null"
  | some _ =>
    match rawStrArrayToVec args.asGroupBy.columns with
    | .error msg => FfiResult.error ERROR_NULL_ARGS msg
    | .ok cols =>
      match h.getContextType with
      | none => FfiResult.error ERROR_POLARS_OPERATION "Invalid context type"
      | some .dataFrame =>
        FfiResult.successLazyGroupBy ⟨.fromFrame h.handle.asFrame, cols⟩
      | some .lazyFrame =>
        FfiResult.successLazyGroupBy ⟨h.handle.asLazy, cols⟩
      | some .lazyGroupBy =>
        FfiResult.error ERROR_POLARS_OPERATION
          "Cannot call group_by() on already grouped data."

/-- The `dispatch_agg` (src/rust/src/dataframe.rs): requires the `LazyGroupBy`
context and a non-empty expression stack, then drains the whole stack (in
pushed order) as the aggregation list. -/
def dispatchAgg (h : PolarsHandle) (stack : List PExpr) :
    FfiResult × List PExpr :=
  match h.handle with
  | none => (FfiResult.error ERROR_NULL_HANDLE "Handle cannot be null", stack)
  | some _ =>
    match h.getContextType with
    | none => (FfiResult.error ERROR_POLARS_OPERATION "Invalid context type", stack)
    | some ct =>
      if ct ≠ .lazyGroupBy then
        (FfiResult.error ERROR_POLARS_OPERATION
          "Agg() can only be called on LazyGroupBy. Use GroupBy() first.", stack)
      else if stack.isEmpty then
        (FfiResult.error ERROR_POLARS_OPERATION
          "No expressions available for aggregation", stack)
      else
        let g := h.handle.asLazyGroupBy
        (FfiResult.successLazy (.aggL g.src g.keys stack.reverse), [])

/-- The conversion loop of `dispatch_sort` (src/rust/src/dataframe.rs):
per-field column name (UTF-8 checked), `descending` and `nulls_last`
flags. -/
def sortFieldsDecode : List SortFieldV → Option (List String × List Bool × List Bool)
  | [] => some ([], [], [])
  | f :: rest =>
    match f.column.asStr with
    | none => none
    | some name =>
      match sortFieldsDecode rest with
      | none => none
      | some (cs, ds, ns) =>
        some (name :: cs, decide (f.direction = .descending) :: ds,
          decide (f.nulls_ordering = .last) :: ns)

/-- The `dispatch_sort` (src/rust/src/dataframe.rs). -/
def dispatchSort (env : Env) (h : PolarsHandle) (args : ArgVal) : FfiResult :=
  match h.handle with
  | none => FfiResult.error ERROR_NULL_HANDLE "Handle cannot be null"
  | some _ =>
    match h.getContextType with
    | none => FfiResult.error ERROR_POLARS_OPERATION "Invalid context type"
    | some ct =>
      let a := args.asSort
      if a.fields.length = 0 then
        FfiResult.error ERROR_NULL_ARGS "Sort requires at least one field"
      else
        match sortFieldsDecode a.fields with
        | none => FfiResult.error ERROR_INVALID_UTF8 "Invalid UTF-8 in column name"
        | some (cols, desc, nullsLast) =>
          match ct with
          | .dataFrame =>
            match env.sortFrame h.handle.asFrame cols desc nullsLast with
            | .ok df => FfiResult.success df
            | .error e => FfiResult.error ERROR_POLARS_OPERATION ("Sort failed: " ++ e)
          | .lazyFrame =>
            FfiResult.successLazy (.sortL h.handle.asLazy cols desc nullsLast)
          | .lazyGroupBy =>
            FfiResult.error ERROR_POLARS_OPERATION
              ("Cannot call sort() on " ++ ContextType.lazyGroupBy.name ++
                ". Call agg() first to resolve grouping.")

/-- The `dispatch_limit` (src/rust/src/dataframe.rs): zero rows is an
`ERROR_NULL_ARGS`; a Frame is `head`ed eagerly, a Plan gets a lazy
`limit(n as u32)` node. -/
def dispatchLimit (h : PolarsHandle) (args : ArgVal) : FfiResult :=
  match h.handle with
  | none => FfiResult.error ERROR_NULL_HANDLE "Handle cannot be null"
  | some _ =>
    match h.getContextType with
    | none => FfiResult.error ERROR_POLARS_OPERATION "Invalid context type"
    | some ct =>
      let a := args.asLimit
      if a.n = 0 then
        FfiResult.error ERROR_NULL_ARGS "Limit must be greater than 0"
      else
        match ct with
        | .dataFrame => FfiResult.success (h.handle.asFrame.head a.n)
        | .lazyFrame => FfiResult.successLazy (.limitL h.handle.asLazy (a.n % 2 ^ 32))
        | .lazyGroupBy =>
          FfiResult.error ERROR_POLARS_OPERATION
            "Cannot call limit() on grouped data. Call agg() first to resolve grouping."

/-- The `dispatch_count` (src/rust/src/dataframe.rs): chains
`select([len().alias("count")])`. -/
def dispatchCount (h : PolarsHandle) : FfiResult :=
  match h.handle with
  | none => FfiResult.error ERROR_NULL_HANDLE "Handle cannot be null"
  | some _ =>
    match h.getContextType with
    | none => FfiResult.error ERROR_POLARS_OPERATION "Invalid context type"
    | some .dataFrame =>
      FfiResult.successLazy
        (.selectL (.fromFrame h.handle.asFrame) [.aliasE .lenE "count"])
    | some .lazyFrame =>
      FfiResult.successLazy (.selectL h.handle.asLazy [.aliasE .lenE "count"])
    | some .lazyGroupBy =>
      FfiResult.error ERROR_POLARS_OPERATION
        "Cannot call count() on grouped data. Call agg() first to resolve grouping."

/-- The handle-collection loop of `dispatch_concat`: the first zero handle
aborts. -/
def collectFrames : List (Option DataFrameV) → Option (List DataFrameV)
  | [] => some []
  | none :: _ => none
  | some df :: rest =>
    match collectFrames rest with
    | none => none
    | some dfs => some (df :: dfs)

/-- The `dispatch_concat` (src/rust/src/dataframe.rs): functional over an array
of frame handles; the current handle is unused. -/
def dispatchConcat (env : Env) (_h : PolarsHandle) (args : ArgVal) : FfiResult :=
  let a := args.asConcat
  match a.handles with
  | none => FfiResult.error ERROR_NULL_ARGS "Concat handles cannot be null or empty"
  | some hs =>
    if hs.length = 0 then
      FfiResult.error ERROR_NULL_ARGS "Concat handles cannot be null or empty"
    else
      match collectFrames hs with
      | none => FfiResult.error ERROR_NULL_HANDLE "DataFrame handle cannot be null"
      | some dfs =>
        match env.concatRun dfs with
        | .ok df => FfiResult.success df
        | .error e => FfiResult.error ERROR_POLARS_OPERATION e

/-- The `dispatch_select_expr` (src/rust/src/dataframe.rs): drains the whole
chain stack (in pushed order) before the context check, so the stack is
empty in every outcome past the emptiness test. -/
def dispatchSelectExpr (h : PolarsHandle) (stack : List PExpr) :
    FfiResult × List PExpr :=
  match h.handle with
  | none => (FfiResult.error ERROR_NULL_HANDLE "Handle cannot be null", stack)
  | some _ =>
    if stack.isEmpty then
      (FfiResult.error ERROR_POLARS_OPERATION
        "No expressions available for select operation", stack)
    else
      let exprs := stack.reverse
      match h.getContextType with
      | none => (FfiResult.error ERROR_POLARS_OPERATION "Invalid context type", [])
      | some .dataFrame =>
        (FfiResult.successLazy (.selectL (.fromFrame h.handle.asFrame) exprs), [])
      | some .lazyFrame =>
        (FfiResult.successLazy (.selectL h.handle.asLazy exprs), [])
      | some .lazyGroupBy =>
        (FfiResult.error ERROR_POLARS_OPERATION
          "Cannot call select() on grouped data. Call agg() first to resolve grouping.", [])

/-- The `dispatch_with_column` (src/rust/src/dataframe.rs): like
`dispatch_select_expr` but chains `with_columns`. -/
def dispatchWithColumn (h : PolarsHandle) (stack : List PExpr) :
    FfiResult × List PExpr :=
  match h.handle with
  | none => (FfiResult.error ERROR_NULL_HANDLE "Handle cannot be null", stack)
  | some _ =>
    if stack.isEmpty then
      (FfiResult.error ERROR_POLARS_OPERATION
        "WithColumn operation requires an expression on the stack", stack)
    else
      let exprs := stack.reverse
      match h.getContextType with
      | none => (FfiResult.error ERROR_POLARS_OPERATION "Invalid context type", [])
      | some .dataFrame =>
        (FfiResult.successLazy (.withColumnsL (.fromFrame h.handle.asFrame) exprs), [])
      | some .lazyFrame =>
        (FfiResult.successLazy (.withColumnsL h.handle.asLazy exprs), [])
      | some .lazyGroupBy =>
        (FfiResult.error ERROR_POLARS_OPERATION
          "Cannot call with_columns() on grouped data. Call agg() first to resolve grouping.", [])

/-- The `dispatch_filter_expr` (src/rust/src/dataframe.rs): runs the embedded
sub-program with its own private stack via `execute_expr_ops`; any failure
there resurfaces as `ERROR_POLARS_OPERATION` with the message produced by
the sub-program. -/
def dispatchFilterExpr (env : Env) (h : PolarsHandle) (args : ArgVal) : FfiResult :=
  match h.handle with
  | none => FfiResult.error ERROR_NULL_HANDLE "Handle cannot be null"
  | some _ =>
    match args.asFilter with
    | none => FfiResult.error ERROR_NULL_ARGS "Expression operations cannot be null or empty"
    | some ops =>
      if ops.length = 0 then
        FfiResult.error ERROR_NULL_ARGS "Expression operations cannot be null or empty"
      else
        match executeExprOps env ops with
        | .error msg => FfiResult.error ERROR_POLARS_OPERATION msg
        | .ok e =>
          match h.getContextType with
          | none => FfiResult.error ERROR_POLARS_OPERATION "Invalid context type"
          | some .dataFrame =>
            FfiResult.successLazy (.filterL (.fromFrame h.handle.asFrame) e)
          | some .lazyFrame =>
            FfiResult.successLazy (.filterL h.handle.asLazy e)
          | some .lazyGroupBy =>
            FfiResult.error ERROR_POLARS_OPERATION
              "Cannot call filter() on grouped data. Call agg() first to resolve grouping."

/-- The `dispatch_collect` (src/rust/src/dataframe.rs): a Frame is cloned
as-is, a Plan is materialized, a grouped plan is an error. -/
def dispatchCollect (env : Env) (h : PolarsHandle) : FfiResult :=
  match h.handle with
  | none => FfiResult.error ERROR_NULL_HANDLE "Handle cannot be null"
  | some _ =>
    match h.getContextType with
    | none => FfiResult.error ERROR_POLARS_OPERATION "Invalid context type"
    | some .dataFrame => FfiResult.success h.handle.asFrame
    | some .lazyFrame =>
      match env.collectRun h.handle.asLazy with
      | .ok df => FfiResult.success df
      | .error e => FfiResult.error ERROR_POLARS_OPERATION e
    | some .lazyGroupBy =>
      FfiResult.error ERROR_POLARS_OPERATION
        ("Cannot collect " ++ ContextType.lazyGroupBy.name ++
          ". Call agg() first to resolve grouping.")

/-- The `dispatch_add_null_row` (src/rust/src/dataframe.rs): only on a Frame;
both lazy kinds share one error arm advising `collect()` first. -/
def dispatchAddNullRow (env : Env) (h : PolarsHandle) : FfiResult :=
  match h.handle with
  | none => FfiResult.error ERROR_NULL_HANDLE "Handle cannot be null"
  | some _ =>
    match h.getContextType with
    | none => FfiResult.error ERROR_POLARS_OPERATION "Invalid context type"
    | some .dataFrame =>
      match env.vstackNull h.handle.asFrame with
      | .ok df => FfiResult.success df
      | .error e => FfiResult.error ERROR_POLARS_OPERATION e
    | some .lazyFrame | some .lazyGroupBy =>
      FfiResult.error ERROR_POLARS_OPERATION
        "Cannot add null row to lazy frame. Call collect() first."

/-- The `dispatch_query` (src/rust/src/dataframe.rs): null args first, UTF-8
check on the SQL, then execution against the handle registered as `df`;
an unrecognized context tag yields `ERROR_NULL_HANDLE` with an
"Invalid context type" message (as in the source). -/
def dispatchQuery (env : Env) (h : PolarsHandle) (args : ArgVal) : FfiResult :=
  match args with
  | .nullPtr => FfiResult.error ERROR_NULL_ARGS "QueryArgs cannot be null"
  | _ =>
    match args.asQuery.sql.asStr with
    | none => FfiResult.error ERROR_INVALID_UTF8 "Invalid UTF-8 in SQL query"
    | some sql =>
      match h.getContextType with
      | some .dataFrame =>
        match env.sqlExec (.fromFrame h.handle.asFrame) sql with
        | .ok lf => FfiResult.successLazy lf
        | .error e => FfiResult.error ERROR_POLARS_OPERATION e
      | some .lazyFrame =>
        match env.sqlExec h.handle.asLazy sql with
        | .ok lf => FfiResult.successLazy lf
        | .error e => FfiResult.error ERROR_POLARS_OPERATION e
      | some .lazyGroupBy =>
        FfiResult.error ERROR_POLARS_OPERATION
          "Cannot execute SQL query on grouped data. Call agg() first to resolve grouping."
      | none => FfiResult.error ERROR_NULL_HANDLE "Invalid context type"

/-- Modelled from the spec: `dispatch_join` is called by
`dispatch_dataframe_operation` (src/rust/src/execution.rs) but its
definition is not under src/.  Spec §4.3/§4.4: Join preserves the input
kind (Frame→Frame, Plan→Plan) through the backing library and is an error
on a GroupedPlan, whose restriction message advises resolving the grouping
with Agg first. -/
def dispatchJoin (env : Env) (h : PolarsHandle) (_args : ArgVal) : FfiResult :=
  match h.handle with
  | none => FfiResult.error ERROR_NULL_HANDLE "Handle cannot be null"
  | some _ =>
    match h.getContextType with
    | none => FfiResult.error ERROR_POLARS_OPERATION "Invalid context type"
    | some .dataFrame =>
      match env.joinFrame h.handle.asFrame with
      | .ok df => FfiResult.success df
      | .error e => FfiResult.error ERROR_POLARS_OPERATION e
    | some .lazyFrame =>
      match env.joinLazy h.handle.asLazy with
      | .ok lf => FfiResult.successLazy lf
      | .error e => FfiResult.error ERROR_POLARS_OPERATION e
    | some .lazyGroupBy =>
      FfiResult.error ERROR_POLARS_OPERATION
        "Cannot call join() on grouped data. Call agg() first to resolve grouping."

/-- The `dispatch_dataframe_operation` (src/rust/src/execution.rs): maps each
frame opcode to its handler and pairs the result with the context type the
driver will carry forward; `Sort`, `Limit` and `Join` preserve the input
context (`unwrap_or(DataFrame)`).  The third component is the chain
expression stack the step leaves behind (consumed by `SelectExpr`,
`WithColumn` and `Agg`). -/
def dispatchDataframeOperation (env : Env) (opcode : OpCode)
    (handle : PolarsHandle) (args : ArgVal) (stack : List PExpr) :
    (FfiResult × ContextType) × List PExpr :=
  match opcode with
  | .newEmpty => ((dispatchNewEmpty, .dataFrame), stack)
  | .readCsv => ((dispatchReadCsv env handle args, .lazyFrame), stack)
  | .readParquet => ((dispatchReadParquet env handle args, .lazyFrame), stack)
  | .select => ((dispatchSelect handle args, .lazyFrame), stack)
  | .selectExpr =>
    let r := dispatchSelectExpr handle stack
    ((r.1, .lazyFrame), r.2)
  | .count => ((dispatchCount handle, .lazyFrame), stack)
  | .concat => ((dispatchConcat env handle args, .dataFrame), stack)
  | .withColumn =>
    let r := dispatchWithColumn handle stack
    ((r.1, .lazyFrame), r.2)
  | .filterExpr => ((dispatchFilterExpr env handle args, .lazyFrame), stack)
  | .groupBy => ((dispatchGroupBy handle args, .lazyGroupBy), stack)
  | .agg =>
    let r := dispatchAgg handle stack
    ((r.1, .lazyFrame), r.2)
  | .sort =>
    ((dispatchSort env handle args, handle.getContextType.getD .dataFrame), stack)
  | .limit =>
    ((dispatchLimit handle args, handle.getContextType.getD .dataFrame), stack)
  | .addNullRow => ((dispatchAddNullRow env handle, .dataFrame), stack)
  | .collect => ((dispatchCollect env handle, .dataFrame), stack)
  | .query => ((dispatchQuery env handle args, .lazyFrame), stack)
  | .join =>
    ((dispatchJoin env handle args, handle.getContextType.getD .dataFrame), stack)
  | _ =>
    ((FfiResult.error ERROR_POLARS_OPERATION "Unsupported DataFrame operation",
      handle.getContextType.getD .dataFrame), stack)

/-- The loop of `execute_operations` (src/rust/src/execution.rs): current
handle, current context type and the shared expression stack are threaded
through; a failing step returns its code and message with `error_frame`
equal to the loop index, and only frame opcodes update the current
handle. -/
def executeGo (env : Env) : Nat → HVal → ContextType → List PExpr →
    List Operation → FfiResult
  | _, h, ctxT, _, [] => FfiResult.successWithHandle h ctxT
  | idx, h, ctxT, stack, op :: rest =>
    match op.getOpcode with
    | none =>
      FfiResult.error ERROR_POLARS_OPERATION ("Invalid opcode: " ++ toString op.1)
    | some opcode =>
      let step :=
        if opcode.isDataframeOp then
          let r := dispatchDataframeOperation env opcode (PolarsHandle.mkNew h ctxT)
            op.2 stack
          (r.1.1, r.1.2, r.2)
        else if opcode.isExpressionOp then
          let r := dispatchExpressionOperation env opcode op.2 stack
          (r.1, ctxT, r.2)
        else
          (FfiResult.error ERROR_POLARS_OPERATION "Unknown operation type", ctxT, stack)
      if step.1.error_code ≠ 0 then
        { polars_handle := PolarsHandle.mkNew none .dataFrame
          error_code := step.1.error_code
          error_message := step.1.error_message
          error_frame := idx }
      else
        let h' := if opcode.isDataframeOp then step.1.polars_handle.handle else h
        executeGo env (idx + 1) h' step.2.1 step.2.2 rest

/-- The `execute_operations` (src/rust/src/execution.rs): the single entry
point.  A null or empty operation array is rejected; the initial context is
the tag of the handle, defaulting to `DataFrame` when the tag is not a valid
`ContextType`. -/
def executeOperations (env : Env) (polars_handle : PolarsHandle)
    (operations : Option (List Operation)) : FfiResult :=
  match operations with
  | none => FfiResult.error ERROR_POLARS_OPERATION "Operations cannot be null or empty"
  | some ops =>
    if ops.length = 0 then
      FfiResult.error ERROR_POLARS_OPERATION "Operations cannot be null or empty"
    else
      executeGo env 0 polars_handle.handle
        (polars_handle.getContextType.getD .dataFrame) [] ops

/-!  Observations used by the theorems. -/

/-- Whether `needle` is a prefix of `hay`. -/
def listStartsWithSub : List Char → List Char → Bool
  | _, [] => true
  | [], _ :: _ => false
  | a :: as, b :: bs => decide (a = b) && listStartsWithSub as bs

/-- Whether `needle` occurs contiguously in `hay`. -/
def listContainsSub (hay needle : List Char) : Bool :=
  match hay with
  | [] => needle.isEmpty
  | _ :: rest => listStartsWithSub hay needle || listContainsSub rest needle

/-- Whether `pat` occurs as a substring of `s`. -/
def hasSubstr (s pat : String) : Bool :=
  listContainsSub s.data pat.data

/-- How many rows the plan reads from its sources, given the row count of
each file: a scan without an installed row limit reads the whole file, one
with `n_rows = Some n` reads at most `n`.  Downstream nodes do not shrink
what their source scan reads, because the engine performs no reordering or
fusion of the chain it builds (spec §5); only a limit recorded inside the
scan arguments bounds the scan. -/
def rowsScanned (fileRows : String → Nat) : LazyFrameV → Nat
  | .scanCsv p _ => fileRows p
  | .scanParquet p nR _ =>
    match nR with
    | some n => min n (fileRows p)
    | none => fileRows p
  | .fromFrame df => df.rows
  | .selectL s _ => rowsScanned fileRows s
  | .filterL s _ => rowsScanned fileRows s
  | .limitL s _ => rowsScanned fileRows s
  | .sortL s _ _ _ => rowsScanned fileRows s
  | .withColumnsL s _ => rowsScanned fileRows s
  | .aggL s _ _ => rowsScanned fileRows s
  | .sqlL _ => 0

/-- A concrete collaborator environment in which every backing-library call
succeeds, used to evaluate the embedding at concrete inputs. -/
def envTest : Env where
  csvFinish := fun _ _ => .ok ()
  parquetScan := fun _ => .ok ()
  sqlExprParse := fun s => .ok (.col s)
  sqlExec := fun lf _ => .ok lf
  collectRun := fun _ => .ok ⟨7, 99⟩
  sortFrame := fun df _ _ _ => .ok df
  vstackNull := fun df => .ok ⟨df.rows + 1, df.id⟩
  concatRun := fun _ => .ok ⟨5, 55⟩
  joinFrame := fun df => .ok df
  joinLazy := fun lf => .ok lf

/-- The nine binary expression opcodes: arithmetic, comparison, boolean. -/
def binaryOpCodes : List OpCode :=
  [.exprAdd, .exprSub, .exprMul, .exprDiv, .exprGt, .exprLt, .exprEq,
   .exprAnd, .exprOr]

/-- The `Expr` combination each binary opcode performs (src/rust/src/expr.rs,
the closure passed to `binary_expr_op`). -/
def binCombine : OpCode → PExpr → PExpr → PExpr
  | .exprAdd => .addE
  | .exprSub => .subE
  | .exprMul => .mulE
  | .exprDiv => .divE
  | .exprGt => .gtE
  | .exprLt => .ltE
  | .exprEq => .eqE
  | .exprAnd => .andE
  | .exprOr => .orE
  | _ => fun l _ => l

/-- The advisory phrase the spec says GroupedPlan-restriction messages
carry. -/
def aggAdvice : String := "Call agg() first to resolve grouping."

def msgSelectGrouped : String :=
  "Cannot call select() on grouped data. Call agg() first to resolve grouping."

def msgWithColumnsGrouped : String :=
  "Cannot call with_columns() on grouped data. Call agg() first to resolve grouping."

def msgFilterGrouped : String :=
  "Cannot call filter() on grouped data. Call agg() first to resolve grouping."

def msgSortGrouped : String :=
  "Cannot call sort() on LazyGroupBy. Call agg() first to resolve grouping."

def msgLimitGrouped : String :=
  "Cannot call limit() on grouped data. Call agg() first to resolve grouping."

def msgCountGrouped : String :=
  "Cannot call count() on grouped data. Call agg() first to resolve grouping."

def msgCollectGrouped : String :=
  "Cannot collect LazyGroupBy. Call agg() first to resolve grouping."

def msgQueryGrouped : String :=
  "Cannot execute SQL query on grouped data. Call agg() first to resolve grouping."

def msgJoinGrouped : String :=
  "Cannot call join() on grouped data. Call agg() first to resolve grouping."

def msgGroupByGrouped : String :=
  "Cannot call group_by() on already grouped data."

def msgAddNullRowLazy : String :=
  "Cannot add null row to lazy frame. Call collect() first."

/-- The frame opcodes that operate on the current handle (all frame opcodes
except the stack-resolving `Agg` and the handle-ignoring seed/functional
ops `NewEmpty`, `ReadCsv`, `ReadParquet`, `Concat`). -/
def groupedRestricted : List OpCode :=
  [.select, .selectExpr, .count, .withColumn, .filterExpr, .groupBy,
   .sort, .limit, .addNullRow, .collect, .query, .join]

@[simp] theorem ERROR_NULL_HANDLE_ne_zero : ERROR_NULL_HANDLE ≠ 0 := by decide

@[simp] theorem ERROR_NULL_ARGS_ne_zero : ERROR_NULL_ARGS ≠ 0 := by decide

@[simp] theorem ERROR_INVALID_UTF8_ne_zero : ERROR_INVALID_UTF8 ≠ 0 := by decide

@[simp] theorem ERROR_POLARS_OPERATION_ne_zero : ERROR_POLARS_OPERATION ≠ 0 := by
  decide

@[simp] theorem FfiResult.error_code_error (c : Int) (m : String) :
    (FfiResult.error c m).error_code = c := rfl

@[simp] theorem FfiResult.handle_error (c : Int) (m : String) :
    (FfiResult.error c m).polars_handle.handle = none := rfl

@[simp] theorem FfiResult.error_code_success (df : DataFrameV) :
    (FfiResult.success df).error_code = 0 := rfl

@[simp] theorem FfiResult.error_code_successLazy (lf : LazyFrameV) :
    (FfiResult.successLazy lf).error_code = 0 := rfl

@[simp] theorem FfiResult.error_code_successLazyGroupBy (g : LazyGroupByV) :
    (FfiResult.successLazyGroupBy g).error_code = 0 := rfl

@[simp] theorem FfiResult.error_code_successNoHandle :
    (FfiResult.successNoHandle).error_code = 0 := rfl

@[simp] theorem PolarsHandle.getContextType_one (h : HVal) :
    PolarsHandle.getContextType ⟨h, 1⟩ = some .dataFrame := rfl

@[simp] theorem PolarsHandle.getContextType_two (h : HVal) :
    PolarsHandle.getContextType ⟨h, 2⟩ = some .lazyFrame := rfl

@[simp] theorem PolarsHandle.getContextType_three (h : HVal) :
    PolarsHandle.getContextType ⟨h, 3⟩ = some .lazyGroupBy := rfl

@[simp] theorem ContextType.fromU32_toU32 (c : ContextType) :
    ContextType.fromU32 c.toU32 = some c := by
  cases c <;> rfl

theorem ContextType.fromU32_grouped {t : Nat}
    (h : ContextType.fromU32 t = some .lazyGroupBy) : t = 3 := by
  unfold ContextType.fromU32 at h
  split at h <;> simp_all

/-!  Claim C4. -/

/-- C4: `expr_count` reads the include-nulls flag but pushes `expr.count()`
in both arms, so the two flag values produce identical results on every
stack — contradicting the claim that they select different reductions.
Evaluated at the failing input: stack `[col "a"]` with both flag values. -/
theorem C4_count_flag_ignored :
    (∀ stack : List PExpr,
      exprCount (.countA ⟨true⟩) stack = exprCount (.countA ⟨false⟩) stack) ∧
    exprCount (.countA ⟨true⟩) [.col "a"] =
      (FfiResult.successNoHandle, [.countE (.col "a")]) ∧
    exprCount (.countA ⟨false⟩) [.col "a"] =
      (FfiResult.successNoHandle, [.countE (.col "a")]) := by
  refine ⟨fun stack => ?_, rfl, rfl⟩
  cases stack <;> rfl

/-!  Claim C10. -/

/-- C10: on any non-empty stack, `expr_lag` and `expr_lead` with the same
raw offset produce exactly the same result: both pop the top expression and
push it shifted by the negation of the offset (`(-offset) as i64` and
`-(offset as i64)` are the same wrapped value), so lag and lead are the
same function of the raw offset. -/
theorem C10_lag_lead_same_shift :
    (∀ (a : ArgVal) (e : PExpr) (rest : List PExpr),
      exprLag a (e :: rest) = exprLead a (e :: rest)) ∧
    (∀ (o : Int) (e : PExpr) (rest : List PExpr),
      exprLag (.windowOffA ⟨o⟩) (e :: rest) =
        (FfiResult.successNoHandle, .shiftE e (wrap64 (-o)) :: rest) ∧
      exprLead (.windowOffA ⟨o⟩) (e :: rest) =
        (FfiResult.successNoHandle, .shiftE e (wrap64 (-o)) :: rest)) :=
  ⟨fun _ _ _ => rfl, fun _ _ _ => ⟨rfl, rfl⟩⟩

/-!  Claim C3. -/

/-- C3: at the failing input — Parquet read with column list `["a"]` and
`n_rows = 5` — `dispatch_read_parquet` returns a plan whose scan uses
`ScanArgsParquet::default()` (no row limit installed, projection applied as
a separate `select` step after the scan), so with a 10-row file the scan
reads all 10 rows instead of at most 5. -/
theorem C3_parquet_limit_dropped :
    dispatchReadParquet envTest ⟨none, 1⟩
        (.readParquetA ⟨.valid "data.parquet", some [.valid "a"], 5, true, false⟩) =
      FfiResult.successLazy
        (.selectL (.scanParquet "data.parquet" none .auto) [.col "a"]) ∧
    rowsScanned (fun _ => 10)
        (.selectL (.scanParquet "data.parquet" none .auto) [.col "a"]) = 10 ∧
    ¬ rowsScanned (fun _ => 10)
        (.selectL (.scanParquet "data.parquet" none .auto) [.col "a"]) ≤ 5 :=
  ⟨rfl, rfl, by decide⟩

/-!  Claim C9. -/

/-- C9: a handle whose context tag is not a valid `ContextType` (not 1, 2
or 3) is not rejected by `execute_operations`; the run is identical to the
run of the same handle tagged `DataFrame` (1), because the driver takes
`get_context_type().unwrap_or(ContextType::DataFrame)`. -/
theorem C9_invalid_tag_treated_as_frame (env : Env) (h : HVal) (t : Nat)
    (ops : Option (List Operation)) (ht : ContextType.fromU32 t = none) :
    executeOperations env ⟨h, t⟩ ops = executeOperations env ⟨h, 1⟩ ops := by
  cases ops with
  | none => rfl
  | some l =>
    simp only [executeOperations, PolarsHandle.getContextType, ht]
    rfl

/-- Witness for C9 at tag 7 with a one-step `Collect` chain. -/
theorem C9_invalid_tag_witness :
    ContextType.fromU32 7 = none ∧
    executeOperations envTest ⟨some (.frame ⟨3, 1⟩), 7⟩ (some [(11, ArgVal.nullPtr)]) =
      executeOperations envTest ⟨some (.frame ⟨3, 1⟩), 1⟩ (some [(11, ArgVal.nullPtr)]) :=
  ⟨rfl, C9_invalid_tag_treated_as_frame envTest _ 7 _ rfl⟩

/-!  Claim C7. -/

/-- Unfolding one `Collect` step of the chain driver. -/
theorem executeGo_collect_step (env : Env) (idx : Nat) (hv : HVal)
    (ctx : ContextType) (stack : List PExpr) (rest : List Operation) :
    executeGo env idx hv ctx stack ((11, ArgVal.nullPtr) :: rest) =
      (if (dispatchCollect env ⟨hv, ctx.toU32⟩).error_code ≠ 0 then
        { polars_handle := ⟨none, 1⟩
          error_code := (dispatchCollect env ⟨hv, ctx.toU32⟩).error_code
          error_message := (dispatchCollect env ⟨hv, ctx.toU32⟩).error_message
          error_frame := idx }
      else
        executeGo env (idx + 1)
          (dispatchCollect env ⟨hv, ctx.toU32⟩).polars_handle.handle
          .dataFrame stack rest) := rfl

/-- From any state, running two consecutive `Collect` steps gives the same
final result as running one. -/
theorem collectTwiceAux (env : Env) (idx : Nat) (hv : HVal) (ctx : ContextType)
    (stack : List PExpr) :
    executeGo env idx hv ctx stack [(11, ArgVal.nullPtr), (11, ArgVal.nullPtr)] =
      executeGo env idx hv ctx stack [(11, ArgVal.nullPtr)] := by
  cases hv with
  | none => rfl
  | some obj =>
    cases ctx with
    | dataFrame => rfl
    | lazyGroupBy => rfl
    | lazyFrame =>
      rw [executeGo_collect_step, executeGo_collect_step, executeGo_collect_step]
      have hdc : dispatchCollect env ⟨some obj, ContextType.lazyFrame.toU32⟩ =
          match env.collectRun (HVal.asLazy (some obj)) with
          | .ok df => FfiResult.success df
          | .error e => FfiResult.error ERROR_POLARS_OPERATION e := rfl
      rw [hdc]
      cases env.collectRun (HVal.asLazy (some obj)) with
      | ok df => rfl
      | error e => rfl

/-- C7: `Collect` is idempotent.  Chaining `Collect; Collect` through
`execute_operations` returns exactly the same `FfiResult` (content and
context tag) as a single `Collect`, for every handle and environment; on a
handle already tagged `Frame`, `Collect` returns the same frame content
(`clone`); and the driver tags every `Collect` result `Frame`. -/
theorem C7_collect_idempotent :
    (∀ (env : Env) (h : PolarsHandle),
      executeOperations env h (some [(11, ArgVal.nullPtr), (11, ArgVal.nullPtr)]) =
        executeOperations env h (some [(11, ArgVal.nullPtr)])) ∧
    (∀ (env : Env) (d : DataFrameV),
      dispatchCollect env ⟨some (.frame d), 1⟩ = FfiResult.success d) ∧
    (∀ (env : Env) (hd : PolarsHandle) (args : ArgVal) (stack : List PExpr),
      (dispatchDataframeOperation env .collect hd args stack).1.2 = .dataFrame) := by
  refine ⟨fun env h => ?_, fun env d => rfl, fun env hd args stack => rfl⟩
  simp only [executeOperations, List.length]
  exact collectTwiceAux env 0 h.handle _ []

/-!  Claim C8. -/

/-- C8 counterexample: `Limit(0)` dispatched on a null handle fails with
error code 1 (`ERROR_NULL_HANDLE`), not code 2 — the null-handle check
precedes the zero-row check — refuting "for every handle and context ...
fails with error code 2". -/
theorem C8_counterexample_null_handle :
    (dispatchLimit ⟨none, 1⟩ (.limitA ⟨0⟩)).error_code = ERROR_NULL_HANDLE ∧
    ERROR_NULL_HANDLE ≠ ERROR_NULL_ARGS :=
  ⟨rfl, by decide⟩

/-- C8 (amended): for every *non-null* handle with a valid context tag,
`Limit(0)` fails with error code 2 and a zero result handle; for `n > 0` it
succeeds on Frame and Plan handles (eager `head` on a Frame, a lazy
`limit(n as u32)` node on a Plan), and the driver carries the input context
tag forward. -/
theorem C8_limit_zero_error_positive_ok (env : Env) (o : PolarsObj) (t : Nat)
    (ct : ContextType) (hT : ContextType.fromU32 t = some ct) :
    ((dispatchLimit ⟨some o, t⟩ (.limitA ⟨0⟩)).error_code = ERROR_NULL_ARGS ∧
      (dispatchLimit ⟨some o, t⟩ (.limitA ⟨0⟩)).polars_handle.handle = none) ∧
    (∀ n : Nat, 0 < n →
      (∀ df, o = .frame df → ct = .dataFrame →
        dispatchLimit ⟨some o, t⟩ (.limitA ⟨n⟩) = FfiResult.success (df.head n)) ∧
      (∀ lf, o = .lazy lf → ct = .lazyFrame →
        dispatchLimit ⟨some o, t⟩ (.limitA ⟨n⟩) =
          FfiResult.successLazy (.limitL lf (n % 2 ^ 32)))) ∧
    (∀ (args : ArgVal) (stack : List PExpr),
      (dispatchDataframeOperation env .limit ⟨some o, t⟩ args stack).1.2 = ct) := by
  refine ⟨?_, fun n hn => ⟨?_, ?_⟩, fun args stack => ?_⟩
  · simp [dispatchLimit, PolarsHandle.getContextType, hT, ArgVal.asLimit,
      PolarsHandle.mkNew]
  · rintro df rfl rfl
    have hn0 : n ≠ 0 := Nat.pos_iff_ne_zero.mp hn
    simp [dispatchLimit, PolarsHandle.getContextType, hT, ArgVal.asLimit, hn0,
      HVal.asFrame]
  · rintro lf rfl rfl
    have hn0 : n ≠ 0 := Nat.pos_iff_ne_zero.mp hn
    simp [dispatchLimit, PolarsHandle.getContextType, hT, ArgVal.asLimit, hn0,
      HVal.asLazy]
  · simp [dispatchDataframeOperation, PolarsHandle.getContextType, hT]

/-- Witness for C8 at a three-row frame, tag `Frame`: `Limit(0)` is code 2
with no handle, `Limit(2)` heads the frame, and the context tag is
preserved. -/
theorem C8_limit_witness :
    ((dispatchLimit ⟨some (.frame ⟨3, 1⟩), 1⟩ (.limitA ⟨0⟩)).error_code =
        ERROR_NULL_ARGS ∧
      (dispatchLimit ⟨some (.frame ⟨3, 1⟩), 1⟩ (.limitA ⟨0⟩)).polars_handle.handle =
        none) ∧
    dispatchLimit ⟨some (.frame ⟨3, 1⟩), 1⟩ (.limitA ⟨2⟩) =
      FfiResult.success ⟨2, 1⟩ ∧
    (dispatchDataframeOperation envTest .limit ⟨some (.frame ⟨3, 1⟩), 1⟩
        (.limitA ⟨2⟩) []).1.2 = .dataFrame := by
  have h := C8_limit_zero_error_positive_ok envTest (.frame ⟨3, 1⟩) 1 .dataFrame rfl
  refine ⟨h.1, ?_, h.2.2 (.limitA ⟨2⟩) []⟩
  have h2 := (h.2.1 2 (by decide)).1 ⟨3, 1⟩ rfl rfl
  simpa [DataFrameV.head] using h2

/-!  Claim C2. -/

/-- C2 counterexample: a chain whose single operation is a `FilterExpr`
carrying a sub-program with an invalid-UTF-8 `Column` name returns error
code 4 (`ERROR_POLARS_OPERATION`, message "Expression operation failed"),
not code 3 — `execute_expr_ops` flattens the sub-program failure into a
static-string error that `dispatch_filter_expr` rewraps as a backing-library
error, losing the UTF-8 code. -/
theorem C2_counterexample_filter_code4 :
    executeOperations envTest ⟨some (.frame ⟨3, 1⟩), 1⟩
        (some [(8, .filterA (some [(100, .columnA ⟨.invalid⟩)]))]) =
      { polars_handle := ⟨none, 1⟩, error_code := ERROR_POLARS_OPERATION,
        error_message := "Expression operation failed", error_frame := 0 } ∧
    ERROR_POLARS_OPERATION ≠ ERROR_INVALID_UTF8 :=
  ⟨rfl, by decide⟩

/-- C2 (amended): an invalid-UTF-8 `StringView` consumed by the `Column`
expression opcode dispatched directly in the chain yields error code 3 with
the offending-operation index, from any reachable driver state; but when
the invalid string is inside the expression sub-program of a `FilterExpr`,
the chain fails with error code 4 ("Expression operation failed") at the index
of the `FilterExpr` operation itself. -/
theorem C2_utf8_error_reporting :
    (∀ (env : Env) (idx : Nat) (hv : HVal) (ctxT : ContextType)
        (stack : List PExpr) (rest : List Operation),
      executeGo env idx hv ctxT stack ((100, ArgVal.columnA ⟨.invalid⟩) :: rest) =
        { polars_handle := ⟨none, 1⟩, error_code := ERROR_INVALID_UTF8,
          error_message := "Invalid UTF-8 in column name", error_frame := idx }) ∧
    (∀ (env : Env) (idx : Nat) (o : PolarsObj) (ctxT : ContextType)
        (stack : List PExpr) (rest : List Operation)
        (subRest : List Operation),
      executeGo env idx (some o) ctxT stack
          ((8, ArgVal.filterA
              (some ((100, ArgVal.columnA ⟨.invalid⟩) :: subRest))) :: rest) =
        { polars_handle := ⟨none, 1⟩, error_code := ERROR_POLARS_OPERATION,
          error_message := "Expression operation failed", error_frame := idx }) := by
  exact ⟨fun env idx hv ctxT stack rest => rfl,
    fun env idx o ctxT stack rest subRest => rfl⟩

/-!  Claim C6. -/



/-- C6: every binary expression opcode fails (leaving the stack untouched)
when fewer than 2 expressions are on the stack, and otherwise pops the top
as the right operand and the next as the left, pushing the combined
expression — a net stack effect of minus one. -/
theorem C6_binary_ops_stack_discipline (env : Env) (args : ArgVal) :
    ∀ op ∈ binaryOpCodes, ∀ stack : List PExpr,
      (stack.length < 2 →
        (dispatchExpressionOperation env op args stack).1.error_code =
          ERROR_POLARS_OPERATION ∧
        (dispatchExpressionOperation env op args stack).2 = stack) ∧
      (∀ r l rest, stack = r :: l :: rest →
        dispatchExpressionOperation env op args stack =
          (FfiResult.successNoHandle, binCombine op l r :: rest) ∧
        (dispatchExpressionOperation env op args stack).2.length + 1 =
          stack.length) := by
  intro op hop stack
  have hcase : ∀ name : String, ∀ f : PExpr → PExpr → PExpr,
      (stack.length < 2 →
        (binaryExprOp name f stack).1.error_code = ERROR_POLARS_OPERATION ∧
        (binaryExprOp name f stack).2 = stack) ∧
      (∀ r l rest, stack = r :: l :: rest →
        binaryExprOp name f stack = (FfiResult.successNoHandle, f l r :: rest) ∧
        (binaryExprOp name f stack).2.length + 1 = stack.length) := by
    intro name f
    constructor
    · intro hlen
      match stack, hlen with
      | [], _ => exact ⟨rfl, rfl⟩
      | [e], _ => exact ⟨rfl, rfl⟩
      | r :: l :: rest, h => simp [List.length] at h; omega
    · rintro r l rest rfl
      exact ⟨rfl, rfl⟩
  fin_cases hop <;>
    simpa only [dispatchExpressionOperation, exprAdd, exprSub, exprMul, exprDiv,
      exprGt, exprLt, exprEq, exprAnd, exprOr, binCombine] using
      hcase _ _

/-- Witness for C6 at the `ExprAdd` opcode: underflow on the empty stack,
and `[right, left]` combining to `left + right`. -/
theorem C6_binary_ops_witness :
    (dispatchExpressionOperation envTest .exprAdd .nullPtr []).1.error_code =
      ERROR_POLARS_OPERATION ∧
    dispatchExpressionOperation envTest .exprAdd .nullPtr [.col "b", .col "a"] =
      (FfiResult.successNoHandle, [.addE (.col "a") (.col "b")]) := by
  have h0 := C6_binary_ops_stack_discipline envTest .nullPtr .exprAdd
    (by simp [binaryOpCodes]) []
  have h2 := C6_binary_ops_stack_discipline envTest .nullPtr .exprAdd
    (by simp [binaryOpCodes]) [.col "b", .col "a"]
  exact ⟨(h0.1 (by decide)).1,
    by simpa [binCombine] using (h2.2 (.col "b") (.col "a") [] rfl).1⟩

/-!  Claim C5. -/


/-- C5 counterexample: two GroupedPlan-rejection messages do not advise
resolving the grouping with `Agg` first — `GroupBy` on an already-grouped
plan says only "Cannot call group_by() on already grouped data.", and
`AddNullRow` advises `collect()` instead — refuting "every such
GroupedPlan-restriction message advises resolving the grouping with Agg
first". -/
theorem C5_counterexample_messages :
    dispatchGroupBy ⟨some (.lazyGroupBy ⟨.fromFrame ⟨3, 1⟩, ["k"]⟩), 3⟩
        (.groupByA ⟨some [.valid "dept"]⟩) =
      FfiResult.error ERROR_POLARS_OPERATION
        "Cannot call group_by() on already grouped data." ∧
    hasSubstr "Cannot call group_by() on already grouped data." "agg" = false ∧
    dispatchAddNullRow envTest ⟨some (.lazyGroupBy ⟨.fromFrame ⟨3, 1⟩, ["k"]⟩), 3⟩ =
      FfiResult.error ERROR_POLARS_OPERATION
        "Cannot add null row to lazy frame. Call collect() first." ∧
    hasSubstr "Cannot add null row to lazy frame. Call collect() first." "agg" =
      false :=
  ⟨rfl, by decide, rfl, by decide⟩

/-- C5 (amended): every frame opcode rejected in the GroupedPlan context
fails with a descriptive constant message; the messages of Select,
SelectExpr/WithColumns, FilterExpr, Sort, Limit, Count, Collect, Query and
Join all contain "Call agg() first to resolve grouping.", while the two
exceptions are GroupBy on an already-grouped plan (descriptive, but with no
agg advice) and AddNullRow (which advises `collect()` first). -/
theorem C5_grouped_restriction_messages :
    (∀ (o : PolarsObj) (args : ArgVal) (cols : List String),
      rawStrArrayToVec args.asSelect.columns = .ok cols →
      dispatchSelect ⟨some o, 3⟩ args =
        FfiResult.error ERROR_POLARS_OPERATION msgSelectGrouped) ∧
    (∀ (o : PolarsObj) (stack : List PExpr), stack ≠ [] →
      dispatchSelectExpr ⟨some o, 3⟩ stack =
        (FfiResult.error ERROR_POLARS_OPERATION msgSelectGrouped, [])) ∧
    (∀ (o : PolarsObj) (stack : List PExpr), stack ≠ [] →
      dispatchWithColumn ⟨some o, 3⟩ stack =
        (FfiResult.error ERROR_POLARS_OPERATION msgWithColumnsGrouped, [])) ∧
    (∀ (env : Env) (o : PolarsObj) (ops : List Operation) (e : PExpr),
      ops ≠ [] → executeExprOps env ops = .ok e →
      dispatchFilterExpr env ⟨some o, 3⟩ (.filterA (some ops)) =
        FfiResult.error ERROR_POLARS_OPERATION msgFilterGrouped) ∧
    (∀ (env : Env) (o : PolarsObj) (args : ArgVal)
        (dec : List String × List Bool × List Bool),
      args.asSort.fields ≠ [] → sortFieldsDecode args.asSort.fields = some dec →
      dispatchSort env ⟨some o, 3⟩ args =
        FfiResult.error ERROR_POLARS_OPERATION msgSortGrouped) ∧
    (∀ (o : PolarsObj) (n : Nat), n ≠ 0 →
      dispatchLimit ⟨some o, 3⟩ (.limitA ⟨n⟩) =
        FfiResult.error ERROR_POLARS_OPERATION msgLimitGrouped) ∧
    (∀ o : PolarsObj,
      dispatchCount ⟨some o, 3⟩ =
        FfiResult.error ERROR_POLARS_OPERATION msgCountGrouped) ∧
    (∀ (env : Env) (o : PolarsObj),
      dispatchCollect env ⟨some o, 3⟩ =
        FfiResult.error ERROR_POLARS_OPERATION msgCollectGrouped) ∧
    (∀ (env : Env) (o : PolarsObj) (s : String),
      dispatchQuery env ⟨some o, 3⟩ (.queryA ⟨.valid s⟩) =
        FfiResult.error ERROR_POLARS_OPERATION msgQueryGrouped) ∧
    (∀ (env : Env) (o : PolarsObj) (args : ArgVal),
      dispatchJoin env ⟨some o, 3⟩ args =
        FfiResult.error ERROR_POLARS_OPERATION msgJoinGrouped) ∧
    (∀ (o : PolarsObj) (args : ArgVal) (cols : List String),
      rawStrArrayToVec args.asGroupBy.columns = .ok cols →
      dispatchGroupBy ⟨some o, 3⟩ args =
        FfiResult.error ERROR_POLARS_OPERATION msgGroupByGrouped) ∧
    (∀ (env : Env) (o : PolarsObj),
      dispatchAddNullRow env ⟨some o, 3⟩ =
        FfiResult.error ERROR_POLARS_OPERATION msgAddNullRowLazy) ∧
    (hasSubstr msgSelectGrouped aggAdvice && hasSubstr msgWithColumnsGrouped aggAdvice &&
      hasSubstr msgFilterGrouped aggAdvice && hasSubstr msgSortGrouped aggAdvice &&
      hasSubstr msgLimitGrouped aggAdvice && hasSubstr msgCountGrouped aggAdvice &&
      hasSubstr msgCollectGrouped aggAdvice && hasSubstr msgQueryGrouped aggAdvice &&
      hasSubstr msgJoinGrouped aggAdvice) = true ∧
    hasSubstr msgGroupByGrouped "agg" = false ∧
    hasSubstr msgAddNullRowLazy "agg" = false ∧
    hasSubstr msgAddNullRowLazy "collect()" = true := by
  refine ⟨?_, ?_, ?_, ?_, ?_, ?_, ?_, ?_, ?_, ?_, ?_, ?_, by decide, by decide,
    by decide, by decide⟩
  · intro o args cols hv
    simp [dispatchSelect, hv, msgSelectGrouped]
  · intro o stack hne
    cases stack with
    | nil => exact absurd rfl hne
    | cons e rest => rfl
  · intro o stack hne
    cases stack with
    | nil => exact absurd rfl hne
    | cons e rest => rfl
  · intro env o ops e hne hok
    cases ops with
    | nil => exact absurd rfl hne
    | cons op rest =>
      simp [dispatchFilterExpr, ArgVal.asFilter, hok, msgFilterGrouped]
  · intro env o args dec hne hdec
    cases hf : args.asSort.fields with
    | nil => exact absurd hf hne
    | cons f rest =>
      rw [hf] at hdec
      simp [dispatchSort, hf, hdec, msgSortGrouped, ContextType.name]
  · intro o n hn
    simp [dispatchLimit, ArgVal.asLimit, hn, msgLimitGrouped]
  · intro o
    rfl
  · intro env o
    rfl
  · intro env o s
    rfl
  · intro env o args
    rfl
  · intro o args cols hv
    simp [dispatchGroupBy, hv, msgGroupByGrouped]
  · intro env o
    rfl

/-- Witness for C5 on a grouped-tag lazy handle: Select, Limit and
FilterExpr all reject with the agg-advising messages. -/
theorem C5_grouped_messages_witness :
    dispatchSelect ⟨some (.lazy (.scanCsv "f.csv" true)), 3⟩
        (.selectA ⟨some [.valid "a"]⟩) =
      FfiResult.error ERROR_POLARS_OPERATION msgSelectGrouped ∧
    dispatchLimit ⟨some (.lazy (.scanCsv "f.csv" true)), 3⟩ (.limitA ⟨5⟩) =
      FfiResult.error ERROR_POLARS_OPERATION msgLimitGrouped ∧
    dispatchFilterExpr envTest ⟨some (.lazy (.scanCsv "f.csv" true)), 3⟩
        (.filterA (some [(100, .columnA ⟨.valid "a"⟩)])) =
      FfiResult.error ERROR_POLARS_OPERATION msgFilterGrouped := by
  have h := C5_grouped_restriction_messages
  exact ⟨h.1 _ _ ["a"] rfl, h.2.2.2.2.2.1 _ 5 (by decide),
    h.2.2.2.1 envTest _ _ (.col "a") (List.cons_ne_nil _ _) rfl⟩

/-!  Claim C1. -/

/-- The `Select` with the GroupedPlan tag always fails (null handle, bad column
list, or the grouped-context rejection). -/
theorem selectGroupedNeZero (h : HVal) (args : ArgVal) :
    (dispatchSelect ⟨h, 3⟩ args).error_code ≠ 0 := by
  cases h with
  | none => simp [dispatchSelect]
  | some o =>
    cases hv : rawStrArrayToVec args.asSelect.columns with
    | error m => simp [dispatchSelect, hv]
    | ok cols => simp [dispatchSelect, hv]

/-- The `GroupBy` with the GroupedPlan tag always fails. -/
theorem groupByGroupedNeZero (h : HVal) (args : ArgVal) :
    (dispatchGroupBy ⟨h, 3⟩ args).error_code ≠ 0 := by
  cases h with
  | none => simp [dispatchGroupBy]
  | some o =>
    cases hv : rawStrArrayToVec args.asGroupBy.columns with
    | error m => simp [dispatchGroupBy, hv]
    | ok cols => simp [dispatchGroupBy, hv]

/-- The `SelectExpr` with the GroupedPlan tag always fails. -/
theorem selectExprGroupedNeZero (h : HVal) (stack : List PExpr) :
    (dispatchSelectExpr ⟨h, 3⟩ stack).1.error_code ≠ 0 := by
  cases h with
  | none => simp [dispatchSelectExpr]
  | some o => cases stack <;> simp [dispatchSelectExpr]

/-- The `WithColumn` with the GroupedPlan tag always fails. -/
theorem withColumnGroupedNeZero (h : HVal) (stack : List PExpr) :
    (dispatchWithColumn ⟨h, 3⟩ stack).1.error_code ≠ 0 := by
  cases h with
  | none => simp [dispatchWithColumn]
  | some o => cases stack <;> simp [dispatchWithColumn]

/-- The `FilterExpr` with the GroupedPlan tag always fails. -/
theorem filterExprGroupedNeZero (env : Env) (h : HVal) (args : ArgVal) :
    (dispatchFilterExpr env ⟨h, 3⟩ args).error_code ≠ 0 := by
  cases h with
  | none => simp [dispatchFilterExpr]
  | some o =>
    cases haf : args.asFilter with
    | none => simp [dispatchFilterExpr, haf]
    | some ops =>
      cases ops with
      | nil => simp [dispatchFilterExpr, haf]
      | cons op rest =>
        cases hee : executeExprOps env (op :: rest) with
        | error m => simp [dispatchFilterExpr, haf, hee]
        | ok e => simp [dispatchFilterExpr, haf, hee]

/-- The `Sort` with the GroupedPlan tag always fails. -/
theorem sortGroupedNeZero (env : Env) (h : HVal) (args : ArgVal) :
    (dispatchSort env ⟨h, 3⟩ args).error_code ≠ 0 := by
  cases h with
  | none => simp [dispatchSort]
  | some o =>
    cases hf : args.asSort.fields with
    | nil => simp [dispatchSort, hf]
    | cons f rest =>
      cases hd : sortFieldsDecode (f :: rest) with
      | none => simp [dispatchSort, hf, hd]
      | some dec =>
        obtain ⟨cs, ds, ns⟩ := dec
        simp [dispatchSort, hf, hd]

/-- The `Limit` with the GroupedPlan tag always fails. -/
theorem limitGroupedNeZero (h : HVal) (args : ArgVal) :
    (dispatchLimit ⟨h, 3⟩ args).error_code ≠ 0 := by
  cases h with
  | none => simp [dispatchLimit]
  | some o =>
    cases hn : args.asLimit.n with
    | zero => simp [dispatchLimit, hn]
    | succ k => simp [dispatchLimit, hn]

/-- The `Count` with the GroupedPlan tag always fails. -/
theorem countGroupedNeZero (h : HVal) :
    (dispatchCount ⟨h, 3⟩).error_code ≠ 0 := by
  cases h <;> simp [dispatchCount]

/-- The `Collect` with the GroupedPlan tag always fails. -/
theorem collectGroupedNeZero (env : Env) (h : HVal) :
    (dispatchCollect env ⟨h, 3⟩).error_code ≠ 0 := by
  cases h <;> simp [dispatchCollect]

/-- The `AddNullRow` with the GroupedPlan tag always fails. -/
theorem addNullRowGroupedNeZero (env : Env) (h : HVal) :
    (dispatchAddNullRow env ⟨h, 3⟩).error_code ≠ 0 := by
  cases h <;> simp [dispatchAddNullRow]

/-- The `Query` with the GroupedPlan tag always fails. -/
theorem queryGroupedNeZero (env : Env) (h : HVal) (args : ArgVal) :
    (dispatchQuery env ⟨h, 3⟩ args).error_code ≠ 0 := by
  cases args
  case queryA a =>
    obtain ⟨sq⟩ := a
    cases sq <;> simp [dispatchQuery, ArgVal.asQuery, RawStr.asStr]
  all_goals simp [dispatchQuery, ArgVal.asQuery, RawStr.asStr]

/-- The `Join` with the GroupedPlan tag always fails (spec-modelled handler). -/
theorem joinGroupedNeZero (env : Env) (h : HVal) (args : ArgVal) :
    (dispatchJoin env ⟨h, 3⟩ args).error_code ≠ 0 := by
  cases h <;> simp [dispatchJoin]


/-- A carried-forward GroupedPlan context pins the handle tag to 3. -/
theorem preserveCtxAux (hd : PolarsHandle)
    (hctx : hd.getContextType.getD .dataFrame = .lazyGroupBy) :
    hd.context_type = 3 := by
  cases hh : hd.getContextType with
  | none => rw [hh] at hctx; exact absurd hctx (by decide)
  | some c =>
    rw [hh] at hctx
    simp only [Option.getD] at hctx
    subst hctx
    exact ContextType.fromU32_grouped hh

/-- C1 counterexample: `NewEmpty` is a frame opcode other than `Agg`, yet a
chain consisting of it *succeeds* from a GroupedPlan-tagged handle (the
handler ignores its input), refuting "every frame opcode other than Agg
fails with an error" in that context. -/
theorem C1_counterexample_newEmpty :
    OpCode.newEmpty.isDataframeOp = true ∧ OpCode.newEmpty ≠ .agg ∧
    executeOperations envTest ⟨some (.lazyGroupBy ⟨.fromFrame ⟨3, 1⟩, ["k"]⟩), 3⟩
        (some [(1, ArgVal.nullPtr)]) =
      FfiResult.successWithHandle (some (.frame DataFrameV.empty)) .dataFrame :=
  ⟨rfl, by decide, rfl⟩

/-- C1 (amended): in the GroupedPlan context every handle-consuming frame
opcode (Select, SelectExpr, Count, WithColumn, FilterExpr, GroupBy, Sort,
Limit, AddNullRow, Collect, Query, Join) fails, whatever its arguments —
the seed/functional opcodes NewEmpty/ReadCsv/ReadParquet/Concat ignore the
current handle and are exempt — and a dispatch step can only hand the
driver the GroupedPlan context through a successful GroupBy. -/
theorem C1_grouped_plan_automaton :
    (∀ op ∈ groupedRestricted, ∀ (env : Env) (h : HVal) (args : ArgVal)
        (stack : List PExpr),
      ((dispatchDataframeOperation env op ⟨h, 3⟩ args stack).1.1).error_code ≠ 0) ∧
    (∀ (env : Env) (op : OpCode) (hd : PolarsHandle) (args : ArgVal)
        (stack : List PExpr),
      ((dispatchDataframeOperation env op hd args stack).1.1).error_code = 0 →
      (dispatchDataframeOperation env op hd args stack).1.2 = .lazyGroupBy →
      op = .groupBy) := by
  constructor
  · intro op hop env h args stack
    simp only [groupedRestricted, List.mem_cons, List.mem_singleton,
      List.not_mem_nil, or_false] at hop
    rcases hop with rfl | rfl | rfl | rfl | rfl | rfl | rfl | rfl | rfl | rfl | rfl | rfl
    · exact selectGroupedNeZero h args
    · exact selectExprGroupedNeZero h stack
    · exact countGroupedNeZero h
    · exact withColumnGroupedNeZero h stack
    · exact filterExprGroupedNeZero env h args
    · exact groupByGroupedNeZero h args
    · exact sortGroupedNeZero env h args
    · exact limitGroupedNeZero h args
    · exact addNullRowGroupedNeZero env h
    · exact collectGroupedNeZero env h
    · exact queryGroupedNeZero env h args
    · exact joinGroupedNeZero env h args
  · intro env op hd args stack h0 hctx
    cases op
    case groupBy => rfl
    case sort =>
      obtain ⟨hh, hct⟩ := hd
      have h3 : hct = 3 := preserveCtxAux ⟨hh, hct⟩ hctx
      subst h3
      exact absurd h0 (sortGroupedNeZero env hh args)
    case limit =>
      obtain ⟨hh, hct⟩ := hd
      have h3 : hct = 3 := preserveCtxAux ⟨hh, hct⟩ hctx
      subst h3
      exact absurd h0 (limitGroupedNeZero hh args)
    case join =>
      obtain ⟨hh, hct⟩ := hd
      have h3 : hct = 3 := preserveCtxAux ⟨hh, hct⟩ hctx
      subst h3
      exact absurd h0 (joinGroupedNeZero env hh args)
    all_goals
      solve
        | (refine absurd hctx ?_; simp [dispatchDataframeOperation])
        | (refine absurd h0 ?_; simp [dispatchDataframeOperation])

/-- Witness for C1: a `Select` dispatched with the GroupedPlan tag and
valid arguments fails, and a concrete successful `GroupBy` enters the
GroupedPlan context (discharging the success and context hypotheses). -/
theorem C1_grouped_witness :
    ((dispatchDataframeOperation envTest .select
        ⟨some (.lazy (.scanCsv "f.csv" true)), 3⟩
        (.selectA ⟨some [.valid "a"]⟩) []).1.1).error_code ≠ 0 ∧
    OpCode.groupBy = .groupBy := by
  have h := C1_grouped_plan_automaton
  refine ⟨h.1 .select (by simp [groupedRestricted]) envTest _ _ [], ?_⟩
  exact h.2 envTest .groupBy ⟨some (.frame ⟨3, 1⟩), 1⟩
    (.groupByA ⟨some [.valid "k"]⟩) [] rfl rfl

end Firn
